import Mathlib

/-!
Verification of the extraction core of `yt-decrypt` (src/lib.py, src/sig.py).

The program is a cascade of Python `re` searches over a JavaScript bundle
string.  We embed it shallowly: strings are `List Char`, and every regular
expression that the program actually compiles and runs is transliterated,
clause by clause, into a deterministic scanner.  The scanners implement the
exact backtracking behaviour of the Python patterns on the class of inputs
handled here: every character class in the patterns is disjoint from the
literal that follows it, so greedy maximal-munch scanning coincides with
the regex semantics, and the lazy `.*?` segments are implemented by
scanning for the first position at which the full continuation of the
pattern succeeds, which is exactly leftmost-lazy matching.

Two of the source's pattern constants are not valid Python regular
expressions at all: `TCE_GLOBAL_VARS_REGEXP` uses the group references
`\5` and `\6` although only groups 1-4 are defined at the point of use
(Python rejects forward references), and `N_TRANSFORM_REGEXP` has an
unbalanced parenthesis (the `)` of `\2\.join\(\"\")` closes the capture
group, so the final `)` of the alternation has no opening partner).
`build_regex` therefore raises `ValueError("Invalid regex pattern: …")`
whenever either constant is compiled, and the surrounding stage fails with
that message.  We model these two compilation failures by the error values
`invalidTgvMsg` and `invalidNTransformMsg` below, whose payloads are the
exact f-string messages `build_regex` produces.
-/

/-- Apostrophe character, kept out of string literals. -/
def apoC : Char := Char.ofNat 39

/-- Backslash character (used when assembling pattern texts). -/
def bslC : Char := Char.ofNat 92

/-- Python `\s` for the ASCII inputs handled here: space, tab, newline,
carriage return, vertical tab, form feed (code points 32, 9, 10, 13, 11, 12). -/
def isWsC (c : Char) : Bool :=
  c.toNat = 32 || c.toNat = 9 || c.toNat = 10 || c.toNat = 13 ||
    c.toNat = 11 || c.toNat = 12

/-- Python `\d`: `0`-`9`. -/
def isDigitC (c : Char) : Bool := 48 ≤ c.toNat && c.toNat ≤ 57

/-- ASCII letter: `a`-`z` or `A`-`Z`. -/
def isAlphaC (c : Char) : Bool :=
  (97 ≤ c.toNat && c.toNat ≤ 122) || (65 ≤ c.toNat && c.toNat ≤ 90)

/-- Python `\w` (ASCII): letter, digit or `_` (code point 95). -/
def isWordC (c : Char) : Bool := isAlphaC c || isDigitC c || c.toNat = 95

/-- Class `[a-zA-Z0-9_$]`. -/
def isDollarWordC (c : Char) : Bool := isWordC c || c = '$'

/-- First character of `VARIABLE_PART`, i.e. `[a-zA-Z_$]`. -/
def isVarStartC (c : Char) : Bool := isAlphaC c || c = '_' || c = '$'

/-- Continuation character of `VARIABLE_PART`, i.e. `[a-zA-Z_0-9$]`. -/
def isVarContC (c : Char) : Bool := isVarStartC c || isDigitC c

/-- Class `[a-zA-Z0-9$]` (parameter of the TCE sign function). -/
def isSignParamC (c : Char) : Bool := isAlphaC c || isDigitC c || c = '$'

/-- Quote character of the scanned string literals: `"` or `'`. -/
def isQuoteC (c : Char) : Bool := c = '"' || c = apoC

/-- A scanner step: on success returns the consumed span and the remainder,
with `input = consumed ++ remainder` by construction. -/
abbrev ScanStep := List Char → Option (List Char × List Char)

/-- Match a literal, the regex's sequence of escaped characters. -/
def litS (pat : List Char) : ScanStep := fun s =>
  if pat.isPrefixOf s then some (pat, s.drop pat.length) else none

/-- Match exactly one character of a class. -/
def cls1S (f : Char → Bool) : ScanStep
  | [] => none
  | c :: t => if f c then some ([c], t) else none

/-- Greedy Kleene star over a character class (`cls*`). -/
def starS (f : Char → Bool) : List Char → List Char × List Char
  | [] => ([], [])
  | c :: t =>
    if f c then
      let r := starS f t
      (c :: r.1, r.2)
    else ([], c :: t)

/-- Greedy `cls+`: one character of the class, then the star. -/
def plusS (f : Char → Bool) : ScanStep
  | [] => none
  | c :: t =>
    if f c then
      let r := starS f t
      some (c :: r.1, r.2)
    else none

/-- Ordered alternation: the Python `|`, first alternative first. -/
def altS (p q : ScanStep) : ScanStep := fun s =>
  match p s with
  | some r => some r
  | none => q s

/-- Greedy option `(...)?`: try the body, fall back to the empty match. -/
def optS (p : ScanStep) : ScanStep := fun s =>
  match p s with
  | some r => some r
  | none => some ([], s)

/-- Lazy scan `.*?stop`: consume characters one at a time (newlines only
under DOTALL) until the continuation `stop` matches, and return the whole
consumed span including the continuation's.  Fuel is the input length. -/
def lazyS (dotAll : Bool) (stop : ScanStep) : Nat → ScanStep
  | 0, _ => none
  | fuel + 1, s =>
    match stop s with
    | some (a, r) => some (a, r)
    | none =>
      match s with
      | [] => none
      | c :: t =>
        if dotAll || !(c = '\n') then
          match lazyS dotAll stop fuel t with
          | some (a, r) => some (c :: a, r)
          | none => none
        else none

/-- `re.search`: try the matcher at every start position, leftmost first. -/
def searchS {α : Type} (m : List Char → Option α) : List Char → Option α
  | [] => m []
  | c :: t =>
    match m (c :: t) with
    | some r => some r
    | none => searchS m t

/-- `re.search` for a pattern whose first token is `(?:^|…)` under
MULTILINE: the matcher is also told whether the position is at the start
of the string or just after a newline. -/
def searchLineS {α : Type} (m : Bool → List Char → Option α) :
    Bool → List Char → Option α
  | atLS, [] => m atLS []
  | atLS, c :: t =>
    match m atLS (c :: t) with
    | some r => some r
    | none => searchLineS m (c = '\n') t

/-- `re.search` returning the text before the match as well, for `re.sub`. -/
def searchSplitS (m : ScanStep) : List Char → Option (List Char × List Char × List Char)
  | [] =>
    match m [] with
    | some (a, r) => some ([], a, r)
    | none => none
  | c :: t =>
    match m (c :: t) with
    | some (a, r) => some ([], a, r)
    | none =>
      match searchSplitS m t with
      | some (pre, a, r) => some (c :: pre, a, r)
      | none => none

/-- `pattern.sub("", s)`: delete every non-overlapping match, scanning left
to right and continuing after each match.  Fuel is the input length. -/
def subAllS (m : ScanStep) : Nat → List Char → List Char
  | 0, s => s
  | fuel + 1, s =>
    match searchSplitS m s with
    | none => s
    | some (pre, _, rest) => pre ++ subAllS m fuel rest

/-- Python `str.replace`: replace every occurrence of `pat` (non-empty
here) by `rep`, left to right.  Fuel is the input length. -/
def replaceAllS (pat rep : List Char) : Nat → List Char → List Char
  | 0, s => s
  | fuel + 1, s =>
    if pat.isPrefixOf s then rep ++ replaceAllS pat rep fuel (s.drop pat.length)
    else
      match s with
      | [] => []
      | c :: t => c :: replaceAllS pat rep fuel t

/-- Number of positions of `s` at which `pat` occurs (as a prefix of the
corresponding suffix). -/
def occursAtB (pat s : List Char) (i : Nat) : Bool := pat.isPrefixOf (s.drop i)

/-- Occurrence count of `pat` in `s` (overlapping occurrences counted). -/
def countOccur (pat s : List Char) : Nat :=
  ((List.range (s.length + 1)).filter (occursAtB pat s)).length

/-! ## NEW_TCE_GLOBAL_VARS_REGEXP (src/sig.py lines 66-81)

```
('use\s*strict';)?
(?P<code>var\s*(?P<varname>[a-zA-Z0-9_$]+)\s*=\s*
  (?P<value>(?:"…"|'…')\.split\((?:"…"|'…')\)
           |\[(?:(?:"…"|'…')\s*,?\s*)*\]
           |"[^"]*"\.split\("[^"]*"\)))
```
where `"…"` is `"[^"\\]*(?:\\.[^"\\]*)*"` (a double-quoted literal with
escape pairs) and `'…'` its single-quoted twin. -/

/-- Body of a quoted string literal `[^q\\]*(?:\\.[^q\\]*)*` up to (not
including) the closing quote `q`; an escape pair consumes two characters,
and `.` in `\\.` does not match a newline (the pattern is compiled without
DOTALL).  Fuel is the input length. -/
def strBodyS (q : Char) : Nat → ScanStep
  | 0, _ => none
  | _ + 1, [] => none
  | fuel + 1, c :: t =>
    if c = q then some ([], c :: t)
    else if c = bslC then
      match t with
      | [] => none
      | d :: t' =>
        if d = '\n' then none
        else
          match strBodyS q fuel t' with
          | some (a, r) => some (c :: d :: a, r)
          | none => none
    else
      match strBodyS q fuel t with
      | some (a, r) => some (c :: a, r)
      | none => none

/-- A full quoted string literal with quote character `q`. -/
def quotedS (q : Char) : ScanStep := fun s => do
  let (o, s1) ← litS [q] s
  let (b, s2) ← strBodyS q (s1.length + 1) s1
  let (c, s3) ← litS [q] s2
  pure (o ++ b ++ c, s3)

/-- `(?:"…"|'…')`: a double- or single-quoted literal, in that order. -/
def anyQuotedS : ScanStep := altS (quotedS '"') (quotedS apoC)

/-- Value alternative 1: `(?:"…"|'…')\.split\((?:"…"|'…')\)`. -/
def newTceValue1S : ScanStep := fun s => do
  let (a, s1) ← anyQuotedS s
  let (b, s2) ← litS (".split(").toList s1
  let (c, s3) ← anyQuotedS s2
  let (d, s4) ← litS (")").toList s3
  pure (a ++ b ++ c ++ d, s4)

/-- One array element `(?:"…"|'…')\s*,?\s*` of value alternative 2. -/
def newTceArrEntryS : ScanStep := fun s => do
  let (a, s1) ← anyQuotedS s
  let (w1, s2) := starS isWsC s1
  let (c, s3) ← optS (litS (",").toList) s2
  let (w2, s4) := starS isWsC s3
  pure (a ++ w1 ++ c ++ w2, s4)

/-- Greedy `(…)*` over a scanner that always consumes at least one
character on success.  Fuel is the input length. -/
def manyS (p : ScanStep) : Nat → List Char → List Char × List Char
  | 0, s => ([], s)
  | fuel + 1, s =>
    match p s with
    | none => ([], s)
    | some (a, r) =>
      let q := manyS p fuel r
      (a ++ q.1, q.2)

/-- Value alternative 2: `\[(?:(?:"…"|'…')\s*,?\s*)*\]`. -/
def newTceValue2S : ScanStep := fun s => do
  let (a, s1) ← litS ("[").toList s
  let (b, s2) := manyS newTceArrEntryS (s1.length + 1) s1
  let (c, s3) ← litS ("]").toList s2
  pure (a ++ b ++ c, s3)

/-- Value alternative 3: `"[^"]*"\.split\("[^"]*"\)` (no escape pairs). -/
def newTceValue3S : ScanStep := fun s => do
  let (a, s1) ← litS (["\"".get 0]) s
  let (b, s2) := starS (fun c => !(c = '"')) s1
  let (c, s3) ← litS ("\".split(\"").toList s2
  let (d, s4) := starS (fun c => !(c = '"')) s3
  let (e, s5) ← litS ("\")").toList s4
  pure (a ++ b ++ c ++ d ++ e, s5)

/-- The optional strict-mode pragma `('use\s*strict';)?`. -/
def useStrictS : ScanStep := fun s => do
  let (a, s1) ← litS ([apoC] ++ ("use").toList) s
  let (w, s2) := starS isWsC s1
  let (b, s3) ← litS (("strict").toList ++ [apoC] ++ (";").toList) s2
  pure (a ++ w ++ b, s3)

/-- Match of `NEW_TCE_GLOBAL_VARS_REGEXP` at one position, returning the
captures `(code, varname)` used by `extract_tce_func`. -/
def matchNewTce (s : List Char) : Option (List Char × List Char) := do
  let (_, s1) ← optS useStrictS s
  let (v, s2) ← litS ("var").toList s1
  let (w1, s3) := starS isWsC s2
  let (nm, s4) ← plusS isDollarWordC s3
  let (w2, s5) := starS isWsC s4
  let (e, s6) ← litS ("=").toList s5
  let (w3, s7) := starS isWsC s6
  let (vl, _) ← altS newTceValue1S (altS newTceValue2S newTceValue3S) s7
  pure (v ++ w1 ++ nm ++ w2 ++ e ++ w3 ++ vl, nm)

/-- `re.search` of `NEW_TCE_GLOBAL_VARS_REGEXP`. -/
def searchNewTce : List Char → Option (List Char × List Char) :=
  searchS matchNewTce

/-! ## Error messages (exactly the strings the Python code raises). -/

/-- `f"No captures found for input using regex '{name}'"`. -/
def msgNoCaptures (name : List Char) : List Char :=
  ("No captures found for input using regex ").toList ++ [apoC] ++ name ++ [apoC]

/-- `"No capture group named 'code' found using regex '…'"`. -/
def msgNoCodeGroup : List Char :=
  ("No capture group named ").toList ++ [apoC] ++ ("code").toList ++ [apoC] ++
    (" found using regex ").toList ++ [apoC] ++ ("NEW_TCE_GLOBAL_VARS_REGEXP").toList ++ [apoC]

/-- `"No capture group named 'varname' found using regex '…'"`. -/
def msgNoVarnameGroup : List Char :=
  ("No capture group named ").toList ++ [apoC] ++ ("varname").toList ++ [apoC] ++
    (" found using regex ").toList ++ [apoC] ++ ("NEW_TCE_GLOBAL_VARS_REGEXP").toList ++ [apoC]

/-- `f"No first capture group found using regex '{name}'"`. -/
def msgNoFirstGroup (name : List Char) : List Char :=
  ("No first capture group found using regex ").toList ++ [apoC] ++ name ++ [apoC]

/-- `f"No second capture group found using regex '{name}'"`. -/
def msgNoSecondGroup (name : List Char) : List Char :=
  ("No second capture group found using regex ").toList ++ [apoC] ++ name ++ [apoC]

/-- `f"No third capture group found using regex '{name}'"`. -/
def msgNoThirdGroup (name : List Char) : List Char :=
  ("No third capture group found using regex ").toList ++ [apoC] ++ name ++ [apoC]

/-- The literal text of `TCE_GLOBAL_VARS_REGEXP` (src/sig.py lines 60-64). -/
def tgvPatternText : List Char :=
  ("(?:^|[;,])\\s*(var\\s+([\\w$]+)\\s*=\\s*(?:([\\\"").toList ++ [apoC] ++
    ("])(?:\\\\.|[^\\\\])*?\\3\\s*\\.\\s*split\\(([\\\"").toList ++ [apoC] ++
    ("])(?:\\\\.|[^\\\\])*?\\5\\)|\\[\\s*(?:([\\\"").toList ++ [apoC] ++
    ("])(?:\\\\.|[^\\\\])*?\\6\\s*,?\\s*)+\\]))(?=\\s*[,;])").toList

/-- The literal text of `N_TRANSFORM_REGEXP` (src/sig.py lines 43-50). -/
def ntPatternText : List Char :=
  ("function\\(\\s*(\\w+)\\s*\\)\\s*\\\x7bvar\\s*(\\w+)=(?:\\1\\.split\\(.*?\\)|String\\.prototype\\.split\\.call\\(\\1,.*?\\)),\\s*(\\w+)=(\\[.*?\\]);\\s*\\3\\[\\d+\\](.*?try)(\\\x7b.*?\\\x7d)catch\\(\\s*(\\w+)\\s*\\)\\s*\\\x7b\\s*return\\\"[\\w-]+([A-z0-9-]+)\\\"\\s*\\+\\s*\\1\\s*\x7d\\s*return\\s*(\\2\\.join\\(\\\"\\\")|Array\\.prototype\\.join\\.call\\(\\2,.*?\\))\x7d;").toList

/-- `build_regex(TCE_GLOBAL_VARS_REGEXP, …)` raises this `ValueError`:
the pattern text uses the forward group references `\5` and `\6`, which
Python's `re` rejects at compile time. -/
def invalidTgvMsg : List Char :=
  ("Invalid regex pattern: ").toList ++ tgvPatternText

/-- `build_regex(N_TRANSFORM_REGEXP, …)` raises this `ValueError`: the
pattern text contains an unbalanced `)` (the close-paren of
`\2\.join\(\"\")` ends the capture group, leaving the alternation's final
`)` unmatched), which Python's `re` rejects at compile time. -/
def invalidNTransformMsg : List Char :=
  ("Invalid regex pattern: ").toList ++ ntPatternText

/-- Decidable equality for `Except`, used to evaluate stage results on
concrete inputs. -/
instance {e a : Type} [DecidableEq e] [DecidableEq a] : DecidableEq (Except e a) := fun x y =>
  match x, y with
  | .error u, .error v => if h : u = v then isTrue (by rw [h]) else isFalse (by simp [h])
  | .ok u, .ok v => if h : u = v then isTrue (by rw [h]) else isFalse (by simp [h])
  | .error _, .ok _ => isFalse (by simp)
  | .ok _, .error _ => isFalse (by simp)

/-- Result record of `extract_tce_func` (the `ExtractTceFunc` dataclass). -/
structure ExtractTceFunc where
  name : List Char
  code : List Char
deriving DecidableEq, Repr

/-- `extract_tce_func` (src/sig.py lines 125-141): search
`NEW_TCE_GLOBAL_VARS_REGEXP`, fail if there is no match or if either named
capture is empty, otherwise return the `varname` and `code` captures. -/
def extract_tce_func (body : List Char) : Except (List Char) ExtractTceFunc :=
  match searchNewTce body with
  | none => .error (msgNoCaptures ("NEW_TCE_GLOBAL_VARS_REGEXP").toList)
  | some (code, varname) =>
    if code = [] then .error msgNoCodeGroup
    else if varname = [] then .error msgNoVarnameGroup
    else .ok ⟨varname, code⟩

/-! ## TCE_SIGN_FUNCTION_REGEXP (src/sig.py lines 83-89, DOTALL)

```
function\(\s*([a-zA-Z0-9$])\s*\)\s*\{
\s*\1\s*=\s*\1\[(\w+)\[\d+\]\]\(\2\[\d+\]\);
([a-zA-Z0-9$]+)\[\2\[\d+\]\]\(\s*\1\s*,\s*\d+\s*\);
\s*\3\[\2\[\d+\]\]\(\s*\1\s*,\s*\d+\s*\);
.*?return\s*\1\[\2\[\d+\]\]\(\2\[\d+\]\)\};
```
The transliteration is split into sub-scanners, one per pattern line. -/

/-- `\[\d+\]`. -/
def brDigitsS : ScanStep := fun s => do
  let (a, s1) ← litS ("[").toList s
  let (b, s2) ← plusS isDigitC s1
  let (c, s3) ← litS ("]").toList s2
  pure (a ++ b ++ c, s3)

/-- `\[T\[\d+\]\]` for a captured table name `T`. -/
def idxIdxS (t : List Char) : ScanStep := fun s => do
  let (a, s1) ← litS ("[").toList s
  let (b, s2) ← litS t s1
  let (c, s3) ← brDigitsS s2
  let (d, s4) ← litS ("]").toList s3
  pure (a ++ b ++ c ++ d, s4)

/-- `\(T\[\d+\]\)` for a captured table name `T`. -/
def parenIdxS (t : List Char) : ScanStep := fun s => do
  let (a, s1) ← litS ("(").toList s
  let (b, s2) ← litS t s1
  let (c, s3) ← brDigitsS s2
  let (d, s4) ← litS (")").toList s3
  pure (a ++ b ++ c ++ d, s4)

/-- `\(\s*P\s*,\s*\d+\s*\);` for the captured parameter `P`. -/
def argNumCallS (p : List Char) : ScanStep := fun s => do
  let (a, s1) ← litS ("(").toList s
  let (w1, s2) := starS isWsC s1
  let (b, s3) ← litS p s2
  let (w2, s4) := starS isWsC s3
  let (c, s5) ← litS (",").toList s4
  let (w3, s6) := starS isWsC s5
  let (d, s7) ← plusS isDigitC s6
  let (w4, s8) := starS isWsC s7
  let (e, s9) ← litS (");").toList s8
  pure (a ++ w1 ++ b ++ w2 ++ c ++ w3 ++ d ++ w4 ++ e, s9)

/-- `function\(\s*([a-zA-Z0-9$])\s*\)\s*\{\s*`: returns
`(consumed, captured parameter, rest)`. -/
def tceSignHeadS (s : List Char) : Option (List Char × List Char × List Char) := do
  let (l1, s1) ← litS ("function(").toList s
  let (w1, s2) := starS isWsC s1
  let (p, s3) ← cls1S isSignParamC s2
  let (w2, s4) := starS isWsC s3
  let (l2, s5) ← litS (")").toList s4
  let (w3, s6) := starS isWsC s5
  let (l3, s7) ← litS ("\x7b").toList s6
  let (w4, s8) := starS isWsC s7
  pure (l1 ++ w1 ++ p ++ w2 ++ l2 ++ w3 ++ l3 ++ w4, p, s8)

/-- `\1\s*=\s*\1\[(\w+)\[\d+\]\]\(\2\[\d+\]\);`: returns
`(consumed, captured table name, rest)`. -/
def tceSignAssignS (p : List Char) (s : List Char) :
    Option (List Char × List Char × List Char) := do
  let (b1, s1) ← litS p s
  let (w1, s2) := starS isWsC s1
  let (l1, s3) ← litS ("=").toList s2
  let (w2, s4) := starS isWsC s3
  let (b2, s5) ← litS p s4
  let (l2, s6) ← litS ("[").toList s5
  let (t, s7) ← plusS isWordC s6
  let (i1, s8) ← brDigitsS s7
  let (l3, s9) ← litS ("]").toList s8
  let (c1, s10) ← parenIdxS t s9
  let (l4, s11) ← litS (";").toList s10
  pure (b1 ++ w1 ++ l1 ++ w2 ++ b2 ++ l2 ++ t ++ i1 ++ l3 ++ c1 ++ l4, t, s11)

/-- `([a-zA-Z0-9$]+)\[\2\[\d+\]\]\(\s*\1\s*,\s*\d+\s*\);\s*\3\[\2\[\d+\]\]\(\s*\1\s*,\s*\d+\s*\);`
— the two chained helper calls (the second via backreference `\3`). -/
def tceSignCallsS (p t : List Char) : ScanStep := fun s => do
  let (a3, s1) ← plusS isSignParamC s
  let (i1, s2) ← idxIdxS t s1
  let (c1, s3) ← argNumCallS p s2
  let (w1, s4) := starS isWsC s3
  let (b1, s5) ← litS a3 s4
  let (i2, s6) ← idxIdxS t s5
  let (c2, s7) ← argNumCallS p s6
  pure (a3 ++ i1 ++ c1 ++ w1 ++ b1 ++ i2 ++ c2, s7)

/-- Continuation of the lazy segment of `TCE_SIGN_FUNCTION_REGEXP`:
`return\s*\1\[\2\[\d+\]\]\(\2\[\d+\]\)\};`. -/
def tceSignStopS (p t : List Char) : ScanStep := fun s => do
  let (a, s1) ← litS ("return").toList s
  let (w, s2) := starS isWsC s1
  let (b, s3) ← litS p s2
  let (c, s4) ← idxIdxS t s3
  let (d, s5) ← parenIdxS t s4
  let (e, s6) ← litS ("\x7d;").toList s5
  pure (a ++ w ++ b ++ c ++ d ++ e, s6)

/-- Match of `TCE_SIGN_FUNCTION_REGEXP` at one position (group 0). -/
def matchTceSign (s : List Char) : Option (List Char × List Char) := do
  let (h, p, s1) ← tceSignHeadS s
  let (asn, t, s2) ← tceSignAssignS p s1
  let (calls, s3) ← tceSignCallsS p t s2
  let (z, s4) ← lazyS true (tceSignStopS p t) (s3.length + 1) s3
  pure (h ++ asn ++ calls ++ z, s4)

/-- `re.search` of `TCE_SIGN_FUNCTION_REGEXP` returning group 0. -/
def searchTceSign (body : List Char) : Option (List Char) :=
  searchS (fun s => (matchTceSign s).map (·.1)) body

/-! ## TCE_SIGN_FUNCTION_ACTION_REGEXP (src/sig.py lines 91-95, DOTALL)

`var\s+([$A-Za-z0-9_]+)\s*=\s*\{\s*E\s*,\s*E\s*,\s*E\s*};` where each entry
`E` is `[$A-Za-z0-9_]+\s*:\s*function\s*\([^)]*\)\s*\{[^{}]*(?:\{[^{}]*}[^{}]*)*}`. -/

/-- Characters allowed at depth zero of a function body: `[^{}]`. -/
def isNotBraceC (c : Char) : Bool := !(c = '\x7b') && !(c = '\x7d')

/-- `\{[^{}]*}[^{}]*` — one nested block followed by flat text. -/
def innerBlockS : ScanStep := fun s => do
  let (a, s1) ← litS ("\x7b").toList s
  let (b, s2) := starS isNotBraceC s1
  let (c, s3) ← litS ("\x7d").toList s2
  let (d, s4) := starS isNotBraceC s3
  pure (a ++ b ++ c ++ d, s4)

/-- `\{[^{}]*(?:\{[^{}]*}[^{}]*)*}` — a depth-one-bounded function body. -/
def braceBodyS : ScanStep := fun s => do
  let (a, s1) ← litS ("\x7b").toList s
  let (b, s2) := starS isNotBraceC s1
  let (c, s3) := manyS innerBlockS (s2.length + 1) s2
  let (d, s4) ← litS ("\x7d").toList s3
  pure (a ++ b ++ c ++ d, s4)

/-- One action-object entry
`[$A-Za-z0-9_]+\s*:\s*function\s*\([^)]*\)\s*BODY`. -/
def actionEntryS : ScanStep := fun s => do
  let (n, s1) ← plusS isDollarWordC s
  let (w1, s2) := starS isWsC s1
  let (l1, s3) ← litS (":").toList s2
  let (w2, s4) := starS isWsC s3
  let (l2, s5) ← litS ("function").toList s4
  let (w3, s6) := starS isWsC s5
  let (l3, s7) ← litS ("(").toList s6
  let (ar, s8) := starS (fun c => !(c = ')')) s7
  let (l4, s9) ← litS (")").toList s8
  let (w4, s10) := starS isWsC s9
  let (b, s11) ← braceBodyS s10
  pure (n ++ w1 ++ l1 ++ w2 ++ l2 ++ w3 ++ l3 ++ ar ++ l4 ++ w4 ++ b, s11)

/-- `\s*,\s*E` — separator plus the next action entry. -/
def actionSepEntryS : ScanStep := fun s => do
  let (w1, s1) := starS isWsC s
  let (c, s2) ← litS (",").toList s1
  let (w2, s3) := starS isWsC s2
  let (e, s4) ← actionEntryS s3
  pure (w1 ++ c ++ w2 ++ e, s4)

/-- `var\s+([$A-Za-z0-9_]+)\s*=\s*\{\s*` — head of the action object. -/
def actionHeadS : ScanStep := fun s => do
  let (l1, s1) ← litS ("var").toList s
  let (w1, s2) ← plusS isWsC s1
  let (n, s3) ← plusS isDollarWordC s2
  let (w2, s4) := starS isWsC s3
  let (l2, s5) ← litS ("=").toList s4
  let (w3, s6) := starS isWsC s5
  let (l3, s7) ← litS ("\x7b").toList s6
  let (w4, s8) := starS isWsC s7
  pure (l1 ++ w1 ++ n ++ w2 ++ l2 ++ w3 ++ l3 ++ w4, s8)

/-- Match of `TCE_SIGN_FUNCTION_ACTION_REGEXP` at one position (group 0). -/
def matchTceSignAction (s : List Char) : Option (List Char × List Char) := do
  let (h, s1) ← actionHeadS s
  let (e1, s2) ← actionEntryS s1
  let (e2, s3) ← actionSepEntryS s2
  let (e3, s4) ← actionSepEntryS s3
  let (w, s5) := starS isWsC s4
  let (l, s6) ← litS ("\x7d;").toList s5
  pure (h ++ e1 ++ e2 ++ e3 ++ w ++ l, s6)

/-- `re.search` of `TCE_SIGN_FUNCTION_ACTION_REGEXP` returning group 0. -/
def searchTceSignAction (body : List Char) : Option (List Char) :=
  searchS (fun s => (matchTceSignAction s).map (·.1)) body

/-! ## HELPER_REGEXP (src/sig.py lines 30-34, DOTALL)

`var ({VAR})=\{((?:(?:D R|D SL|D SP|D SW),?\n?)+)\};` where `D` is
`\"?{VAR}\"?`, `VAR` is `[a-zA-Z_$][a-zA-Z_0-9$]*` and `R`, `SL`, `SP`,
`SW` are the operation bodies `REVERSE_PART`, `SLICE_PART`, `SPLICE_PART`,
`SWAP_PART` (src/sig.py lines 14-20). -/

/-- `VARIABLE_PART`: `[a-zA-Z_$][a-zA-Z_0-9$]*`. -/
def varPartS : ScanStep := fun s => do
  let (a, s1) ← cls1S isVarStartC s
  let (b, s2) := starS isVarContC s1
  pure (a ++ b, s2)

/-- `VARIABLE_PART_DEFINE`: `\"?VAR\"?`. -/
def defNameS : ScanStep := fun s => do
  let (q1, s1) ← optS (litS ("\"").toList) s
  let (n, s2) ← varPartS s1
  let (q2, s3) ← optS (litS ("\"").toList) s2
  pure (q1 ++ n ++ q2, s3)

/-- `REVERSE_PART`: `:function\(\w\)\{(?:return )?\w\.reverse\(\)\}`. -/
def revPartS : ScanStep := fun s => do
  let (l1, s1) ← litS (":function(").toList s
  let (c1, s2) ← cls1S isWordC s1
  let (l2, s3) ← litS (")\x7b").toList s2
  let (r, s4) ← optS (litS ("return ").toList) s3
  let (c2, s5) ← cls1S isWordC s4
  let (l3, s6) ← litS (".reverse()\x7d").toList s5
  pure (l1 ++ c1 ++ l2 ++ r ++ c2 ++ l3, s6)

/-- `:function\(\w,\w\)\{` — shared head of the two-parameter parts. -/
def twoParamHeadS : ScanStep := fun s => do
  let (l1, s1) ← litS (":function(").toList s
  let (c1, s2) ← cls1S isWordC s1
  let (l2, s3) ← litS (",").toList s2
  let (c2, s4) ← cls1S isWordC s3
  let (l3, s5) ← litS (")\x7b").toList s4
  pure (l1 ++ c1 ++ l2 ++ c2 ++ l3, s5)

/-- `SLICE_PART`: `:function\(\w,\w\)\{return \w\.slice\(\w\)\}`. -/
def slicePartS : ScanStep := fun s => do
  let (h, s1) ← twoParamHeadS s
  let (l1, s2) ← litS ("return ").toList s1
  let (c1, s3) ← cls1S isWordC s2
  let (l2, s4) ← litS (".slice(").toList s3
  let (c2, s5) ← cls1S isWordC s4
  let (l3, s6) ← litS (")\x7d").toList s5
  pure (h ++ l1 ++ c1 ++ l2 ++ c2 ++ l3, s6)

/-- `SPLICE_PART`: `:function\(\w,\w\)\{\w\.splice\(0,\w\)\}`. -/
def splicePartS : ScanStep := fun s => do
  let (h, s1) ← twoParamHeadS s
  let (c1, s2) ← cls1S isWordC s1
  let (l1, s3) ← litS (".splice(0,").toList s2
  let (c2, s4) ← cls1S isWordC s3
  let (l2, s5) ← litS (")\x7d").toList s4
  pure (h ++ c1 ++ l1 ++ c2 ++ l2, s5)

/-- First half of `SWAP_PART`: `var \w=\w\[0\];\w\[0\]=\w\[\w%\w\.length\];`. -/
def swapBody1S : ScanStep := fun s => do
  let (l1, s1) ← litS ("var ").toList s
  let (c1, s2) ← cls1S isWordC s1
  let (l2, s3) ← litS ("=").toList s2
  let (c2, s4) ← cls1S isWordC s3
  let (l3, s5) ← litS ("[0];").toList s4
  let (c3, s6) ← cls1S isWordC s5
  let (l4, s7) ← litS ("[0]=").toList s6
  let (c4, s8) ← cls1S isWordC s7
  pure (l1 ++ c1 ++ l2 ++ c2 ++ l3 ++ c3 ++ l4 ++ c4, s8)

/-- Second half of `SWAP_PART`:
`\[\w%\w\.length\];\w\[\w(?:%\w\.length|)\]=\w(?:;return \w)?\}`. -/
def swapBody2S : ScanStep := fun s => do
  let (l1, s1) ← litS ("[").toList s
  let (c1, s2) ← cls1S isWordC s1
  let (l2, s3) ← litS ("%").toList s2
  let (c2, s4) ← cls1S isWordC s3
  let (l3, s5) ← litS (".length];").toList s4
  let (c3, s6) ← cls1S isWordC s5
  let (l4, s7) ← litS ("[").toList s6
  let (c4, s8) ← cls1S isWordC s7
  pure (l1 ++ c1 ++ l2 ++ c2 ++ l3 ++ c3 ++ l4 ++ c4, s8)

/-- Tail of `SWAP_PART`: `(?:%\w\.length|)\]=\w(?:;return \w)?\}`. -/
def swapBody3S : ScanStep := fun s => do
  let (m1, s1) ← optS (fun u => do
    let (x, u1) ← litS ("%").toList u
    let (y, u2) ← cls1S isWordC u1
    let (z, u3) ← litS (".length").toList u2
    pure (x ++ y ++ z, u3)) s
  let (l1, s2) ← litS ("]=").toList s1
  let (c1, s3) ← cls1S isWordC s2
  let (m2, s4) ← optS (fun u => do
    let (x, u1) ← litS (";return ").toList u
    let (y, u2) ← cls1S isWordC u1
    pure (x ++ y, u2)) s3
  let (l2, s5) ← litS ("\x7d").toList s4
  pure (m1 ++ l1 ++ c1 ++ m2 ++ l2, s5)

/-- `SWAP_PART` assembled from its three sub-scanners. -/
def swapPartS : ScanStep := fun s => do
  let (h, s1) ← twoParamHeadS s
  let (b1, s2) ← swapBody1S s1
  let (b2, s3) ← swapBody2S s2
  let (b3, s4) ← swapBody3S s3
  pure (h ++ b1 ++ b2 ++ b3, s4)

/-- One helper-object entry: the four alternatives of `HELPER_REGEXP`,
each `VARIABLE_PART_DEFINE` followed by one operation body, in the
pattern's order. -/
def helperEntryS : ScanStep := fun s => do
  let (n, s1) ← defNameS s
  let (p, s2) ← altS revPartS (altS slicePartS (altS splicePartS swapPartS)) s1
  pure (n ++ p, s2)

/-- One iteration `(?:ENTRY),?\n?` of the helper-entry loop. -/
def helperIterS : ScanStep := fun s => do
  let (e, s1) ← helperEntryS s
  let (c, s2) ← optS (litS (",").toList) s1
  let (n, s3) ← optS (litS ("\n").toList) s2
  pure (e ++ c ++ n, s3)

/-- Match of `HELPER_REGEXP` at one position, returning
`(group 0, group 2)` — the whole declaration and the entry list. -/
def matchHelper (s : List Char) : Option (List Char × List Char) := do
  let (l1, s1) ← litS ("var ").toList s
  let (n, s2) ← varPartS s1
  let (l2, s3) ← litS ("=\x7b").toList s2
  let (e1, s4) ← helperIterS s3
  let (es, s5) := manyS helperIterS (s4.length + 1) s4
  let (l3, _) ← litS ("\x7d;").toList s5
  pure (l1 ++ n ++ l2 ++ e1 ++ es ++ l3, e1 ++ es)

/-- `re.search` of `HELPER_REGEXP`. -/
def searchHelper : List Char → Option (List Char × List Char) :=
  searchS matchHelper

/-! ## The four operation patterns (src/sig.py lines 102-106)

`(?m)(?:^|,)\"?({VAR})\"?PART`, searched over the captured helper-entry
list by `extract_decipher_func` (src/sig.py lines 173-181). -/

/-- After the `(?:^|,)` anchor: `\"?VAR\"?PART`. -/
def patTailS (part : ScanStep) (s : List Char) : Option Unit := do
  let (_, s1) ← defNameS s
  let (_, _) ← part s1
  pure ()

/-- Match of one operation pattern at a position; `atLS` says whether the
position is at the start of the string or of a line (`(?m)^`).  The `^`
alternative is tried before the `,` alternative, as in the pattern. -/
def matchPat (part : ScanStep) (atLS : Bool) (s : List Char) : Option Unit :=
  match (if atLS then patTailS part s else none) with
  | some r => some r
  | none =>
    match s with
    | c :: t => if c = ',' then patTailS part t else none
    | [] => none

/-- `pattern.search(action_body)` for one operation pattern. -/
def searchPat (part : ScanStep) (ab : List Char) : Bool :=
  (searchLineS (matchPat part) true ab).isSome

/-- `any(pattern.search(action_body) for pattern in pattern_regexes)`
(src/sig.py line 180) over `REVERSE_PATTERN`, `SLICE_PATTERN`,
`SPLICE_PATTERN`, `SWAP_PATTERN`. -/
def anyOfFour (ab : List Char) : Bool :=
  searchPat revPartS ab || searchPat slicePartS ab ||
    searchPat splicePartS ab || searchPat swapPartS ab

/-! ## DECIPHER_REGEXP (src/sig.py lines 22-28, DOTALL)

```
function(?: {VAR})?\(([a-zA-Z])\)\{
\1=\1\.split\(\"\"\);\s*
((?:(?:\1=)?{VAR}{ACCESS}\(\1,\d+\);)+)
return \1\.join\(\"\"\)\}
```
with `ACCESS = (?:\[\"|\\.){VAR}(?:\"\]|)`: the access prefix is either
`["` or a literal backslash followed by any character (the source writes
`\\.`, a backslash escape plus wildcard, not a dot). -/

/-- Any single character (the DOTALL wildcard `.`). -/
def anyCharS : ScanStep := fun s =>
  match s with
  | [] => none
  | c :: t => some ([c], t)

/-- `VARIABLE_PART_ACCESS`: `(?:\[\"|\\.)VAR(?:\"\]|)`. -/
def accessS : ScanStep := fun s => do
  let (b, s1) ← altS (litS ("[\"").toList) (fun u => do
    let (x, u1) ← litS [bslC] u
    let (y, u2) ← anyCharS u1
    pure (x ++ y, u2)) s
  let (n, s2) ← varPartS s1
  let (a, s3) ← optS (litS ("\"]").toList) s2
  pure (b ++ n ++ a, s3)

/-- One decipher call `(?:\1=)?VAR ACCESS\(\1,\d+\);` for parameter `p`. -/
def decipherCallS (p : List Char) : ScanStep := fun s => do
  let (o, s1) ← optS (fun u => do
    let (x, u1) ← litS p u
    let (y, u2) ← litS ("=").toList u1
    pure (x ++ y, u2)) s
  let (n, s2) ← varPartS s1
  let (a, s3) ← accessS s2
  let (l1, s4) ← litS ("(").toList s3
  let (b, s5) ← litS p s4
  let (l2, s6) ← litS (",").toList s5
  let (d, s7) ← plusS isDigitC s6
  let (l3, s8) ← litS (");").toList s7
  pure (o ++ n ++ a ++ l1 ++ b ++ l2 ++ d ++ l3, s8)

/-- `p+` for a scanner consuming at least one character per iteration. -/
def oneManyS (p : ScanStep) : ScanStep := fun s => do
  let (a, s1) ← p s
  let (b, s2) := manyS p (s1.length + 1) s1
  pure (a ++ b, s2)

/-- `function(?: {VAR})?\(([a-zA-Z])\)\{` — decipher head; returns
`(consumed, captured single-letter parameter, rest)`. -/
def decipherHeadS (s : List Char) : Option (List Char × List Char × List Char) := do
  let (l1, s1) ← litS ("function").toList s
  let (o, s2) ← optS (fun u => do
    let (x, u1) ← litS (" ").toList u
    let (y, u2) ← varPartS u1
    pure (x ++ y, u2)) s1
  let (l2, s3) ← litS ("(").toList s2
  let (p, s4) ← cls1S isAlphaC s3
  let (l3, s5) ← litS (")\x7b").toList s4
  pure (l1 ++ o ++ l2 ++ p ++ l3, p, s5)

/-- Match of `DECIPHER_REGEXP` at one position (group 0). -/
def matchDecipher (s : List Char) : Option (List Char × List Char) := do
  let (h, p, s1) ← decipherHeadS s
  let (b1, s2) ← litS p s1
  let (l1, s3) ← litS ("=").toList s2
  let (b2, s4) ← litS p s3
  let (l2, s5) ← litS (".split(\"\");").toList s4
  let (w, s6) := starS isWsC s5
  let (cs, s7) ← oneManyS (decipherCallS p) s6
  let (l3, s8) ← litS ("return ").toList s7
  let (b3, s9) ← litS p s8
  let (l4, s10) ← litS (".join(\"\")\x7d").toList s9
  pure (h ++ b1 ++ l1 ++ b2 ++ l2 ++ w ++ cs ++ l3 ++ b3 ++ l4, s10)

/-- `re.search` of `DECIPHER_REGEXP` returning group 0. -/
def searchDecipher (body : List Char) : Option (List Char) :=
  searchS (fun s => (matchDecipher s).map (·.1)) body

/-! ## FUNCTION_TCE_REGEXP (src/sig.py lines 36-41, DOTALL)

```
function(?:\s+[a-zA-Z_$][a-zA-Z0-9_$]*)?\(\w\)\{
\w=\w\.split\((?:\"\"|[a-zA-Z0-9_$]*\[\d+\])\);
\s*((?:(?:\w=)?[a-zA-Z_$][a-zA-Z0-9_$]*(?:\[\"|\\.)[a-zA-Z_$][a-zA-Z0-9_$]*(?:\"\]|)\(\w,\d+\);)+)
return \w\.join\((?:\"\"|[a-zA-Z0-9_$]*\[\d+\])\)}
```
-/

/-- `(?:\"\"|[a-zA-Z0-9_$]*\[\d+\])` — split/join argument. -/
def splitArgS : ScanStep := fun s =>
  altS (litS ("\"\"").toList) (fun u => do
    let (n, u1) := starS isDollarWordC u
    let (l1, u2) ← litS ("[").toList u1
    let (d, u3) ← plusS isDigitC u2
    let (l2, u4) ← litS ("]").toList u3
    pure (n ++ l1 ++ d ++ l2, u4)) s

/-- One call `(?:\w=)?VAR ACCESS\(\w,\d+\);` of `FUNCTION_TCE_REGEXP`
(parameters are independent `\w` single characters here). -/
def funcTceCallS : ScanStep := fun s => do
  let (o, s1) ← optS (fun u => do
    let (x, u1) ← cls1S isWordC u
    let (y, u2) ← litS ("=").toList u1
    pure (x ++ y, u2)) s
  let (n, s2) ← varPartS s1
  let (a, s3) ← accessS s2
  let (l1, s4) ← litS ("(").toList s3
  let (b, s5) ← cls1S isWordC s4
  let (l2, s6) ← litS (",").toList s5
  let (d, s7) ← plusS isDigitC s6
  let (l3, s8) ← litS (");").toList s7
  pure (o ++ n ++ a ++ l1 ++ b ++ l2 ++ d ++ l3, s8)

/-- `function(?:\s+VAR)?\(\w\)\{` — `FUNCTION_TCE_REGEXP` head. -/
def funcTceHeadS : ScanStep := fun s => do
  let (l1, s1) ← litS ("function").toList s
  let (o, s2) ← optS (fun u => do
    let (x, u1) ← plusS isWsC u
    let (y, u2) ← varPartS u1
    pure (x ++ y, u2)) s1
  let (l2, s3) ← litS ("(").toList s2
  let (p, s4) ← cls1S isWordC s3
  let (l3, s5) ← litS (")\x7b").toList s4
  pure (l1 ++ o ++ l2 ++ p ++ l3, s5)

/-- `return \w\.join\((?:\"\"|[a-zA-Z0-9_$]*\[\d+\])\)}` — tail of
`FUNCTION_TCE_REGEXP`. -/
def funcTceTailS : ScanStep := fun s => do
  let (l1, s1) ← litS ("return ").toList s
  let (c, s2) ← cls1S isWordC s1
  let (l2, s3) ← litS (".join(").toList s2
  let (a, s4) ← splitArgS s3
  let (l3, s5) ← litS (")\x7d").toList s4
  pure (l1 ++ c ++ l2 ++ a ++ l3, s5)

/-- Match of `FUNCTION_TCE_REGEXP` at one position (group 0). -/
def matchFuncTce (s : List Char) : Option (List Char × List Char) := do
  let (h, s1) ← funcTceHeadS s
  let (c1, s2) ← cls1S isWordC s1
  let (l1, s3) ← litS ("=").toList s2
  let (c2, s4) ← cls1S isWordC s3
  let (l2, s5) ← litS (".split(").toList s4
  let (a1, s6) ← splitArgS s5
  let (l3, s7) ← litS (");").toList s6
  let (w, s8) := starS isWsC s7
  let (cs, s9) ← oneManyS funcTceCallS s8
  let (t, s10) ← funcTceTailS s9
  pure (h ++ c1 ++ l1 ++ c2 ++ l2 ++ a1 ++ l3 ++ w ++ cs ++ t, s10)

/-- `re.search` of `FUNCTION_TCE_REGEXP` returning group 0. -/
def searchFuncTce (body : List Char) : Option (List Char) :=
  searchS (fun s => (matchFuncTce s).map (·.1)) body

/-! ## extract_decipher_func (src/sig.py lines 143-209)

The Python function first searches `TCE_SIGN_FUNCTION_REGEXP` and
`TCE_SIGN_FUNCTION_ACTION_REGEXP`; if both match it returns the fast-path
composition immediately.  Otherwise it requires a `HELPER_REGEXP` match,
validates the captured entry list against the four operation patterns,
then tries `DECIPHER_REGEXP` and falls back to `FUNCTION_TCE_REGEXP`.
On the fallback (`is_tce`) path it calls
`build_regex(TCE_GLOBAL_VARS_REGEXP, re.MULTILINE)` (line 201), which
raises `ValueError("Invalid regex pattern: …")` because that pattern does
not compile; the declaration-inclusion code of lines 202-209 is therefore
unreachable, and the stage fails with `invalidTgvMsg` whenever the
fallback driver shape was used. -/

/-- Canonical decipher binding name (src/sig.py line 110). -/
def DECIPHER_FUNC_NAME : List Char := ("DisTubeDecipherFunc").toList

/-- Canonical n-transform binding name (src/sig.py line 111). -/
def N_TRANSFORM_FUNC_NAME : List Char := ("DisTubeNTransformFunc").toList

/-- The non-fast path of `extract_decipher_func` (src/sig.py lines
157-209): helper-object match, operation-pattern gate, driver cascade.
With `is_tce = False` (a `DECIPHER_REGEXP` match) `tce_vars` stays `""`
and the composition `f"{tce_vars};{helper_object}\nvar {NAME}={func};"`
is returned; with `is_tce = True` (only `FUNCTION_TCE_REGEXP` matched)
the `build_regex(TCE_GLOBAL_VARS_REGEXP, …)` call of line 201 raises
`ValueError(invalidTgvMsg)`. -/
def decipher_classic_path (body code : List Char) : Except (List Char) (List Char) :=
  match searchHelper body with
  | none => .error (msgNoCaptures ("HELPER_REGEXP").toList)
  | some (helperObject, actionBody) =>
    if helperObject = [] then
      .error (msgNoFirstGroup ("HELPER_REGEXP").toList)
    else if actionBody = [] then
      .error (msgNoThirdGroup ("HELPER_REGEXP").toList)
    else if !(anyOfFour actionBody) then
      .error (msgNoCaptures ("PATTERN_REGEX_SET").toList)
    else
      match searchDecipher body with
      | some decipherFunc =>
        .ok ((";").toList ++ helperObject ++ ("\n").toList ++ ("var ").toList ++
          DECIPHER_FUNC_NAME ++ ("=").toList ++ decipherFunc ++ (";").toList)
      | none =>
        match searchFuncTce body with
        | none => .error (msgNoCaptures ("FUNCTION_TCE_REGEXP").toList)
        | some _ => .error invalidTgvMsg

/-- `extract_decipher_func` of src/sig.py: the fast path (lines 151-155)
when both the sign function and its action object match, otherwise the
classic path. -/
def extract_decipher_func (body code : List Char) : Except (List Char) (List Char) :=
  match searchTceSign body, searchTceSignAction body with
  | some sig, some act =>
    .ok (("var ").toList ++ DECIPHER_FUNC_NAME ++ ("=").toList ++ sig ++ act ++
      code ++ (";").toList)
  | _, _ => decipher_classic_path body code

/-! ## TCE_N_FUNCTION_REGEXP (src/sig.py lines 97-100, DOTALL)

```
function\s*\((\w+)\)\s*\{var\s*\w+\s*=\s*\1\[\w+\[\d+\]\]\(\w+\[\d+\]\)\s*,\s*\w+\s*=\s*\[.*?\]\;
.*?catch\s*\(\s*(\w+)\s*\)\s*\{return\s*\w+\[\d+\]\s*\+\s*\1\}\s*return\s*\w+\[\w+\[\d+\]\]\(\w+\[\d+\]\)\}\s*\;
```
-/

/-- `\w+\[\d+\]` — a word run with a numeric index. -/
def wordIdxS : ScanStep := fun s => do
  let (n, s1) ← plusS isWordC s
  let (i, s2) ← brDigitsS s1
  pure (n ++ i, s2)

/-- `function\s*\((\w+)\)\s*\{var\s*\w+\s*=\s*` — head of
`TCE_N_FUNCTION_REGEXP`; returns `(consumed, captured parameter, rest)`. -/
def tceNHeadS (s : List Char) : Option (List Char × List Char × List Char) := do
  let (l1, s1) ← litS ("function").toList s
  let (w1, s2) := starS isWsC s1
  let (l2, s3) ← litS ("(").toList s2
  let (p, s4) ← plusS isWordC s3
  let (l3, s5) ← litS (")").toList s4
  let (w2, s6) := starS isWsC s5
  let (l4, s7) ← litS ("\x7bvar").toList s6
  let (w3, s8) := starS isWsC s7
  let (n, s9) ← plusS isWordC s8
  let (w4, s10) := starS isWsC s9
  let (l5, s11) ← litS ("=").toList s10
  let (w5, s12) := starS isWsC s11
  pure (l1 ++ w1 ++ l2 ++ p ++ l3 ++ w2 ++ l4 ++ w3 ++ n ++ w4 ++ l5 ++ w5, p, s12)

/-- `\1\[\w+\[\d+\]\]\(\w+\[\d+\]\)\s*,\s*\w+\s*=\s*\[` then the lazy
`.*?\]\;` — the table-indexed split call and the array literal. -/
def tceNSplitS (p : List Char) : ScanStep := fun s => do
  let (b, s1) ← litS p s
  let (l1, s2) ← litS ("[").toList s1
  let (x1, s3) ← wordIdxS s2
  let (l2, s4) ← litS ("](").toList s3
  let (x2, s5) ← wordIdxS s4
  let (l3, s6) ← litS (")").toList s5
  let (w1, s7) := starS isWsC s6
  let (l4, s8) ← litS (",").toList s7
  let (w2, s9) := starS isWsC s8
  let (n, s10) ← plusS isWordC s9
  let (w3, s11) := starS isWsC s10
  let (l5, s12) ← litS ("=").toList s11
  let (w4, s13) := starS isWsC s12
  let (l6, s14) ← litS ("[").toList s13
  let (z, s15) ← lazyS true (litS ("];").toList) (s14.length + 1) s14
  pure (b ++ l1 ++ x1 ++ l2 ++ x2 ++ l3 ++ w1 ++ l4 ++ w2 ++ n ++ w3 ++ l5 ++
    w4 ++ l6 ++ z, s15)

/-- `catch\s*\(\s*(\w+)\s*\)\s*\{return\s*\w+\[\d+\]\s*\+\s*\1\}` — the
rescue branch of `TCE_N_FUNCTION_REGEXP`. -/
def tceNCatchS (p : List Char) : ScanStep := fun s => do
  let (l1, s1) ← litS ("catch").toList s
  let (w1, s2) := starS isWsC s1
  let (l2, s3) ← litS ("(").toList s2
  let (w2, s4) := starS isWsC s3
  let (e, s5) ← plusS isWordC s4
  let (w3, s6) := starS isWsC s5
  let (l3, s7) ← litS (")").toList s6
  let (w4, s8) := starS isWsC s7
  let (l4, s9) ← litS ("\x7breturn").toList s8
  let (w5, s10) := starS isWsC s9
  let (x, s11) ← wordIdxS s10
  let (w6, s12) := starS isWsC s11
  let (l5, s13) ← litS ("+").toList s12
  let (w7, s14) := starS isWsC s13
  let (b, s15) ← litS p s14
  let (l6, s16) ← litS ("\x7d").toList s15
  pure (l1 ++ w1 ++ l2 ++ w2 ++ e ++ w3 ++ l3 ++ w4 ++ l4 ++ w5 ++ x ++ w6 ++
    l5 ++ w7 ++ b ++ l6, s16)

/-- `\s*return\s*\w+\[\w+\[\d+\]\]\(\w+\[\d+\]\)\}\s*\;` — final return of
`TCE_N_FUNCTION_REGEXP`. -/
def tceNTailS : ScanStep := fun s => do
  let (w1, s1) := starS isWsC s
  let (l1, s2) ← litS ("return").toList s1
  let (w2, s3) := starS isWsC s2
  let (n, s4) ← plusS isWordC s3
  let (l2, s5) ← litS ("[").toList s4
  let (x1, s6) ← wordIdxS s5
  let (l3, s7) ← litS ("](").toList s6
  let (x2, s8) ← wordIdxS s7
  let (l4, s9) ← litS (")\x7d").toList s8
  let (w3, s10) := starS isWsC s9
  let (l5, s11) ← litS (";").toList s10
  pure (w1 ++ l1 ++ w2 ++ n ++ l2 ++ x1 ++ l3 ++ x2 ++ l4 ++ w3 ++ l5, s11)

/-- Stop continuation for the outer lazy segment of
`TCE_N_FUNCTION_REGEXP`: the catch branch plus the final return. -/
def tceNStopS (p : List Char) : ScanStep := fun s => do
  let (c, s1) ← tceNCatchS p s
  let (t, s2) ← tceNTailS s1
  pure (c ++ t, s2)

/-- Match of `TCE_N_FUNCTION_REGEXP` at one position (group 0). -/
def matchTceN (s : List Char) : Option (List Char × List Char) := do
  let (h, p, s1) ← tceNHeadS s
  let (sp, s2) ← tceNSplitS p s1
  let (z, s3) ← lazyS true (tceNStopS p) (s2.length + 1) s2
  pure (h ++ sp ++ z, s3)

/-- `re.search` of `TCE_N_FUNCTION_REGEXP` returning group 0. -/
def searchTceN (body : List Char) : Option (List Char) :=
  searchS (fun s => (matchTceN s).map (·.1)) body

/-! ## N_TRANSFORM_TCE_REGEXP (src/sig.py lines 52-58, DOTALL)

```
function\(\s*(\w+)\s*\)\s*\{
\s*var\s*(\w+)=\1\.split\(\1\.slice\(0,0\)\),\s*(\w+)=\[.*?\];
.*?catch\(\s*(\w+)\s*\)\s*\{
\s*return(?:\"[^\"]+\"|\s*[a-zA-Z_0-9$]*\[\d+\])\s*\+\s*\1\s*}
\s*return\s*\2\.join\((?:\"\"|[a-zA-Z_0-9$]*\[\d+\])\)};
```
This pattern is compiled by the source but the stage raises at the
`N_TRANSFORM_REGEXP` compilation before reaching it (see
`extract_n_transform_func` below); it is embedded here because claims
about the regex itself refer to it. -/

/-- `function\(\s*(\w+)\s*\)` — the one-parameter function header shared
by the legacy n-transform shapes; returns the whitespace runs and the
captured parameter separately so that the header structure is available
to proofs: consumed text is `"function(" ++ a ++ p ++ b ++ ")"`. -/
def nHeaderS (s : List Char) :
    Option (List Char × List Char × List Char × List Char) := do
  let (_, s1) ← litS ("function(").toList s
  let (a, s2) := starS isWsC s1
  let (p, s3) ← plusS isWordC s2
  let (b, s4) := starS isWsC s3
  let (_, s5) ← litS (")").toList s4
  pure (a, p, b, s5)

/-- `\s*\{\s*var\s*(\w+)=\1\.split\(\1\.slice\(0,0\)\),` for parameter `p`;
returns `(consumed, captured array variable, rest)`. -/
def nTceVarS (p : List Char) (s : List Char) :
    Option (List Char × List Char × List Char) := do
  let (w1, s1) := starS isWsC s
  let (l1, s2) ← litS ("\x7b").toList s1
  let (w2, s3) := starS isWsC s2
  let (l2, s4) ← litS ("var").toList s3
  let (w3, s5) := starS isWsC s4
  let (b, s6) ← plusS isWordC s5
  let (l3, s7) ← litS ("=").toList s6
  let (b1, s8) ← litS p s7
  let (l4, s9) ← litS (".split(").toList s8
  let (b2, s10) ← litS p s9
  let (l5, s11) ← litS (".slice(0,0)),").toList s10
  pure (w1 ++ l1 ++ w2 ++ l2 ++ w3 ++ b ++ l3 ++ b1 ++ l4 ++ b2 ++ l5, b, s11)

/-- `\s*(\w+)=\[` then the lazy `.*?\];` — the array literal binding. -/
def nTceArrS : ScanStep := fun s => do
  let (w1, s1) := starS isWsC s
  let (c, s2) ← plusS isWordC s1
  let (l1, s3) ← litS ("=[").toList s2
  let (z, s4) ← lazyS true (litS ("];").toList) (s3.length + 1) s3
  pure (w1 ++ c ++ l1 ++ z, s4)

/-- `(?:\"[^\"]+\"|\s*[a-zA-Z_0-9$]*\[\d+\])` — fallback value of the
rescue branch. -/
def nTceFallbackS : ScanStep := fun s =>
  altS (fun u => do
    let (q1, u1) ← litS ("\"").toList u
    let (c, u2) ← plusS (fun ch => !(ch = '"')) u1
    let (q2, u3) ← litS ("\"").toList u2
    pure (q1 ++ c ++ q2, u3))
    (fun u => do
      let (w, u1) := starS isWsC u
      let (n, u2) := starS isDollarWordC u1
      let (i, u3) ← brDigitsS u2
      pure (w ++ n ++ i, u3)) s

/-- `catch\(\s*(\w+)\s*\)\s*\{\s*return FALLBACK\s*\+\s*\1\s*}` — rescue
branch of `N_TRANSFORM_TCE_REGEXP` for parameter `p`. -/
def nTceCatchS (p : List Char) : ScanStep := fun s => do
  let (l1, s1) ← litS ("catch(").toList s
  let (w1, s2) := starS isWsC s1
  let (e, s3) ← plusS isWordC s2
  let (w2, s4) := starS isWsC s3
  let (l2, s5) ← litS (")").toList s4
  let (w3, s6) := starS isWsC s5
  let (l3, s7) ← litS ("\x7b").toList s6
  let (w4, s8) := starS isWsC s7
  let (l4, s9) ← litS ("return").toList s8
  let (f, s10) ← nTceFallbackS s9
  let (w5, s11) := starS isWsC s10
  let (l5, s12) ← litS ("+").toList s11
  let (w6, s13) := starS isWsC s12
  let (b, s14) ← litS p s13
  let (w7, s15) := starS isWsC s14
  let (l6, s16) ← litS ("\x7d").toList s15
  pure (l1 ++ w1 ++ e ++ w2 ++ l2 ++ w3 ++ l3 ++ w4 ++ l4 ++ f ++ w5 ++ l5 ++
    w6 ++ b ++ w7 ++ l6, s16)

/-- `\s*return\s*\2\.join\((?:\"\"|[a-zA-Z_0-9$]*\[\d+\])\)};` — final
return of `N_TRANSFORM_TCE_REGEXP` for the captured array variable `b`. -/
def nTceTailS (b : List Char) : ScanStep := fun s => do
  let (w1, s1) := starS isWsC s
  let (l1, s2) ← litS ("return").toList s1
  let (w2, s3) := starS isWsC s2
  let (b1, s4) ← litS b s3
  let (l2, s5) ← litS (".join(").toList s4
  let (a, s6) ← altS (litS ("\"\"").toList) (fun u => do
    let (n, u1) := starS isDollarWordC u
    let (i, u2) ← brDigitsS u1
    pure (n ++ i, u2)) s5
  let (l3, s7) ← litS (")\x7d;").toList s6
  pure (w1 ++ l1 ++ w2 ++ b1 ++ l2 ++ a ++ l3, s7)

/-- Stop continuation of the outer lazy segment of
`N_TRANSFORM_TCE_REGEXP`: rescue branch plus final return. -/
def nTceStopS (p b : List Char) : ScanStep := fun s => do
  let (c, s1) ← nTceCatchS p s
  let (t, s2) ← nTceTailS b s1
  pure (c ++ t, s2)

/-- Match of `N_TRANSFORM_TCE_REGEXP` at one position (group 0). -/
def matchNTransformTce (s : List Char) : Option (List Char × List Char) := do
  let (a, p, b, s1) ← nHeaderS s
  let (v, bArr, s2) ← nTceVarS p s1
  let (ar, s3) ← nTceArrS s2
  let (z, s4) ← lazyS true (nTceStopS p bArr) (s3.length + 1) s3
  pure (("function(").toList ++ a ++ p ++ b ++ (")").toList ++ v ++ ar ++ z, s4)

/-- `re.search` of `N_TRANSFORM_TCE_REGEXP` returning group 0. -/
def searchNTransformTce (body : List Char) : Option (List Char) :=
  searchS (fun s => (matchNTransformTce s).map (·.1)) body

/-! ## FOR_PARAM_MATCHING (src/sig.py line 108)

`function\s*\(\s*(\w+)\s*\)` -/

/-- Match of `FOR_PARAM_MATCHING` at one position, returning group 1 (the
parameter name). -/
def matchForParam (s : List Char) : Option (List Char) := do
  let (_, s1) ← litS ("function").toList s
  let (_, s2) := starS isWsC s1
  let (_, s3) ← litS ("(").toList s2
  let (_, s4) := starS isWsC s3
  let (p, s5) ← plusS isWordC s4
  let (_, s6) := starS isWsC s5
  let (_, _) ← litS (")").toList s6
  pure p

/-- `re.search` of `FOR_PARAM_MATCHING`. -/
def searchForParam : List Char → Option (List Char) :=
  searchS matchForParam

/-! ## The short-circuit guard pattern (src/sig.py lines 223-226)

`;\s*if\s*\(\s*typeof\s+[a-zA-Z0-9_$]+\s*===?\s*(?:\"undefined\"|'undefined'|NAME\[\d+\])\s*\)\s*return\s+\w+;`
built with `NAME = re.escape(name)`, so `NAME` matches literally. -/

/-- `;\s*if\s*\(\s*typeof\s+[a-zA-Z0-9_$]+\s*` — guard head. -/
def scHeadS : ScanStep := fun s => do
  let (l1, s1) ← litS (";").toList s
  let (w1, s2) := starS isWsC s1
  let (l2, s3) ← litS ("if").toList s2
  let (w2, s4) := starS isWsC s3
  let (l3, s5) ← litS ("(").toList s4
  let (w3, s6) := starS isWsC s5
  let (l4, s7) ← litS ("typeof").toList s6
  let (w4, s8) ← plusS isWsC s7
  let (n, s9) ← plusS isDollarWordC s8
  let (w5, s10) := starS isWsC s9
  pure (l1 ++ w1 ++ l2 ++ w2 ++ l3 ++ w3 ++ l4 ++ w4 ++ n ++ w5, s10)

/-- `===?\s*(?:\"undefined\"|'undefined'|NAME\[\d+\])` — comparison and
compared value. -/
def scValueS (name : List Char) : ScanStep := fun s => do
  let (e1, s1) ← litS ("==").toList s
  let (e2, s2) ← optS (litS ("=").toList) s1
  let (w, s3) := starS isWsC s2
  let (v, s4) ← altS (litS ("\"undefined\"").toList)
    (altS (litS ([apoC] ++ ("undefined").toList ++ [apoC]))
      (fun u => do
        let (n, u1) ← litS name u
        let (i, u2) ← brDigitsS u1
        pure (n ++ i, u2))) s3
  pure (e1 ++ e2 ++ w ++ v, s4)

/-- `\s*\)\s*return\s+\w+;` — guard tail. -/
def scTailS : ScanStep := fun s => do
  let (w1, s1) := starS isWsC s
  let (l1, s2) ← litS (")").toList s1
  let (w2, s3) := starS isWsC s2
  let (l2, s4) ← litS ("return").toList s3
  let (w3, s5) ← plusS isWsC s4
  let (n, s6) ← plusS isWordC s5
  let (l3, s7) ← litS (";").toList s6
  pure (w1 ++ l1 ++ w2 ++ l2 ++ w3 ++ n ++ l3, s7)

/-- Match of the short-circuit guard pattern at one position (group 0). -/
def matchShortCircuit (name : List Char) : ScanStep := fun s => do
  let (h, s1) ← scHeadS s
  let (v, s2) ← scValueS name s1
  let (t, s3) ← scTailS s2
  pure (h ++ v ++ t, s3)

/-- `short_circuit_pattern.search(n_function)` returning group 0. -/
def searchShortCircuit (name : List Char) (f : List Char) : Option (List Char) :=
  searchS (fun s => (matchShortCircuit name s).map (·.1)) f

/-- The modern guard-removal of src/sig.py lines 228-230: search the
short-circuit pattern; if found, `str.replace` every occurrence of the
matched text by `";"`. -/
def modernClean (name f : List Char) : List Char :=
  match searchShortCircuit name f with
  | none => f
  | some m => replaceAllS m (";").toList (f.length + 1) f

/-! ## The legacy guard-removal pattern (src/sig.py lines 264-267)

`if\s*\(typeof\s*[^\s()]+\s*===?.*?\)return PARAM\s*;?` with
`PARAM = re.escape(param_name)`, applied with `pattern.sub("", f)`.
In the program this code is unreachable — `extract_n_transform_func`
raises at the `build_regex(N_TRANSFORM_REGEXP, …)` call before it — but
it is embedded because the claims about guard removal refer to it. -/

/-- Class `[^\s()]`. -/
def isNotWsParenC (c : Char) : Bool := !(isWsC c) && !(c = '(') && !(c = ')')

/-- `\s*===?` starting right after the kept part of the `[^\s()]+` run. -/
def eqAfterS : ScanStep := fun s => do
  let (w, s1) := starS isWsC s
  let (e1, s2) ← litS ("==").toList s1
  let (e2, s3) ← optS (litS ("=").toList) s2
  pure (w ++ e1 ++ e2, s3)

/-- Backtracking split of the greedy `[^\s()]+\s*===?`: Python first lets
the class run consume maximally, then gives characters back until
`\s*===?` matches.  `krev` is the reversed still-kept run; the longest
keep is tried first. -/
def backEqRevS : List Char → List Char → Option (List Char × List Char)
  | krev, after =>
    match eqAfterS after with
    | some (e, r) => if krev.isEmpty then none else some (krev.reverse ++ e, r)
    | none =>
      match krev with
      | [] => none
      | c :: krev' => backEqRevS krev' (c :: after)

/-- `[^\s()]+\s*===?` with Python's greedy-then-backtrack behaviour. -/
def cleanedCondS : ScanStep := fun s =>
  let (run, s1) := starS isNotWsParenC s
  backEqRevS run.reverse s1

/-- `\)return PARAM\s*;?` — stop continuation of the lazy segment of the
legacy guard pattern. -/
def cleanedStopS (param : List Char) : ScanStep := fun s => do
  let (l1, s1) ← litS ((")return ").toList ++ param) s
  let (w, s2) := starS isWsC s1
  let (c, s3) ← optS (litS (";").toList) s2
  pure (l1 ++ w ++ c, s3)

/-- Match of the legacy guard pattern
`if\s*\(typeof\s*[^\s()]+\s*===?.*?\)return PARAM\s*;?` at one position
(compiled without DOTALL, so the lazy segment does not cross newlines). -/
def matchCleaned (param : List Char) : ScanStep := fun s => do
  let (l1, s1) ← litS ("if").toList s
  let (w1, s2) := starS isWsC s1
  let (l2, s3) ← litS ("(typeof").toList s2
  let (w2, s4) := starS isWsC s3
  let (c, s5) ← cleanedCondS s4
  let (z, s6) ← lazyS false (cleanedStopS param) (s5.length + 1) s5
  pure (l1 ++ w1 ++ l2 ++ w2 ++ c ++ z, s6)

/-- The legacy guard-removal `cleaned_function_pattern.sub("", f)`. -/
def legacyClean (param f : List Char) : List Char :=
  subAllS (matchCleaned param) (f.length + 1) f

/-! ## extract_n_transform_func (src/sig.py lines 211-279)

The modern path (`TCE_N_FUNCTION_REGEXP`) strips the short-circuit guard
by literal substitution and appends the indirection-table declaration.
When the modern shape does not match, line 234 calls
`build_regex(N_TRANSFORM_REGEXP, re.DOTALL)`, which raises
`ValueError(invalidNTransformMsg)` because that pattern has an unbalanced
parenthesis; everything from line 234 on (the legacy shapes, the
`FOR_PARAM_MATCHING` search and the `NTransformParameterNotFound`-style
error of lines 256-257, the legacy guard removal, the global-vars lookup)
is therefore unreachable. -/

/-- `extract_n_transform_func` of src/sig.py. -/
def extract_n_transform_func (body name code : List Char) :
    Except (List Char) (List Char) :=
  match searchTceN body with
  | some nFunction =>
    if nFunction = [] then
      .error (msgNoFirstGroup ("TCE_N_FUNCTION_REGEXP").toList)
    else
      .ok (("var ").toList ++ N_TRANSFORM_FUNC_NAME ++ ("=").toList ++
        modernClean name nFunction ++ code ++ (";").toList)
  | none => .error invalidNTransformMsg

/-! ## extract_decode_script (src/lib.py lines 5-46)

The orchestrator: a `None` input is rejected up front; otherwise the three
stages run in order inside `try`/`except` blocks, the first raised
`ValueError`'s message is returned as the failure, and on success the
decipher and n-transform scripts are concatenated.  (The `isinstance`
check of line 18 guards against non-string arguments and has no
counterpart in this typed embedding.) -/

/-- `"Input string is null"`. -/
def nullInputMsg : List Char := ("Input string is null").toList

/-- `extract_decode_script` of src/lib.py; the input is `none` for
Python's `None` and `some body` for a string. -/
def extract_decode_script (input : Option (List Char)) : Bool × List Char :=
  match input with
  | none => (false, nullInputMsg)
  | some body =>
    match extract_tce_func body with
    | .error e => (false, e)
    | .ok etf =>
      match extract_decipher_func body etf.code with
      | .error e => (false, e)
      | .ok decipherScript =>
        match extract_n_transform_func body etf.name etf.code with
        | .error e => (false, e)
        | .ok nTransformScript => (true, decipherScript ++ nTransformScript)

/-! ## Concrete bundles

`craftedBundle` is the end-to-end scenario of the specification: a table
declaration `var XX="a.b.c".split(".");`, a table-driven sign function
with its three-method action object, and a table-driven n-transform with a
try/catch fallback and an embedded `if(typeof g===XX[0])return g;` guard. -/

/-- The crafted end-to-end bundle. -/
def craftedBundle : List Char :=
  ("var XX=\"a.b.c\".split(\".\");function(a)\x7ba=a[XX[0]](XX[1]);Ac[XX[2]](a,1);Ac[XX[3]](a,2);return a[XX[4]](XX[5])\x7d;var Ac=\x7bp:function(x)\x7bx.reverse()\x7d,q:function(x,y)\x7bx.splice(0,y)\x7d,r:function(x,y)\x7bvar z=x[0];x[0]=x[y%x.length];x[y]=z\x7d\x7d;function(g)\x7bvar h=g[XX[0]](XX[1]),k=[9];if(typeof g===XX[0])return g;try\x7bk[0](h)\x7dcatch(e)\x7breturn XX[2]+g\x7dreturn h[XX[3]](XX[4])\x7d;").toList

/-- The composite script the pipeline produces for `craftedBundle`. -/
def craftedOutput : List Char :=
  ("var DisTubeDecipherFunc=function(a)\x7ba=a[XX[0]](XX[1]);Ac[XX[2]](a,1);Ac[XX[3]](a,2);return a[XX[4]](XX[5])\x7d;var Ac=\x7bp:function(x)\x7bx.reverse()\x7d,q:function(x,y)\x7bx.splice(0,y)\x7d,r:function(x,y)\x7bvar z=x[0];x[0]=x[y%x.length];x[y]=z\x7d\x7d;var XX=\"a.b.c\".split(\".\");var DisTubeNTransformFunc=function(g)\x7bvar h=g[XX[0]](XX[1]),k=[9];try\x7bk[0](h)\x7dcatch(e)\x7breturn XX[2]+g\x7dreturn h[XX[3]](XX[4])\x7d;var XX=\"a.b.c\".split(\".\");").toList

/-- The crafted bundle's table variable name. -/
def craftedName : List Char := ("XX").toList

/-- The crafted bundle's captured table declaration (the `code` group). -/
def craftedCode : List Char := ("var XX=\"a.b.c\".split(\".\")").toList

/-- Group 0 of the sign-function match in `craftedBundle`. -/
def craftedSig : List Char :=
  ("function(a)\x7ba=a[XX[0]](XX[1]);Ac[XX[2]](a,1);Ac[XX[3]](a,2);return a[XX[4]](XX[5])\x7d;").toList

/-- Group 0 of the action-object match in `craftedBundle`. -/
def craftedAct : List Char :=
  ("var Ac=\x7bp:function(x)\x7bx.reverse()\x7d,q:function(x,y)\x7bx.splice(0,y)\x7d,r:function(x,y)\x7bvar z=x[0];x[0]=x[y%x.length];x[y]=z\x7d\x7d;").toList

/-- Group 0 of the `TCE_N_FUNCTION_REGEXP` match in `craftedBundle`
(guard still embedded). -/
def craftedNFunc : List Char :=
  ("function(g)\x7bvar h=g[XX[0]](XX[1]),k=[9];if(typeof g===XX[0])return g;try\x7bk[0](h)\x7dcatch(e)\x7breturn XX[2]+g\x7dreturn h[XX[3]](XX[4])\x7d;").toList

/-- A legacy-layout bundle: helper object plus a `DECIPHER_REGEXP` driver. -/
def legacyBundle : List Char :=
  ("var H=\x7bp:function(w)\x7breturn w.reverse()\x7d,q:function(w,e)\x7breturn w.slice(e)\x7d\x7d;function(c)\x7bc=c.split(\"\");H[\"p\"](c,1);return c.join(\"\")\x7d").toList

/-- Group 0 of the helper match in `legacyBundle`. -/
def legacyHelper : List Char :=
  ("var H=\x7bp:function(w)\x7breturn w.reverse()\x7d,q:function(w,e)\x7breturn w.slice(e)\x7d\x7d;").toList

/-- Group 2 (the entry list) of the helper match in `legacyBundle`. -/
def legacyActionBody : List Char :=
  ("p:function(w)\x7breturn w.reverse()\x7d,q:function(w,e)\x7breturn w.slice(e)\x7d").toList

/-- A bundle whose decipher driver uses the `FUNCTION_TCE_REGEXP` shape
(split/join via indexed lookups) and that contains no global
string-split declaration. -/
def tceDriverBundle : List Char :=
  ("var H=\x7bp:function(w)\x7breturn w.reverse()\x7d,q:function(w,e)\x7breturn w.slice(e)\x7d\x7d;function(c)\x7bc=c.split(Q[0]);H[\"p\"](c,1);return c.join(Q[1])\x7d").toList

/-- A fragment matching `N_TRANSFORM_TCE_REGEXP` (and not
`TCE_N_FUNCTION_REGEXP`). -/
def tceLegacyFragment : List Char :=
  ("function(n)\x7bvar b=n.split(n.slice(0,0)),c=[1];try\x7bd()\x7dcatch(e)\x7breturn\"q\"+n\x7dreturn b.join(\"\")\x7d;").toList

/-- A fragment carrying two differently-named short-circuit guards. -/
def doubleGuardFragment : List Char :=
  (";if(typeof a===\"undefined\")return a;Z;if(typeof b===\"undefined\")return b;").toList

/-- A fragment carrying one short-circuit guard. -/
def singleGuardFragment : List Char :=
  (";if(typeof a===\"undefined\")return a;").toList

/-- A fragment matched entirely by the legacy guard-removal pattern for
parameter `a`. -/
def legacyGuardFragment : List Char :=
  ("if(typeof x===1)return a;").toList

/-! # Lemmas -/

/-- A literal matches its own text followed by anything. -/
lemma litS_self (pat rest : List Char) : litS pat (pat ++ rest) = some (pat, rest) := by
  simp [litS, List.isPrefixOf_iff_prefix, List.prefix_append, List.drop_left]

/-- If a search succeeds, the matcher succeeds at some start position. -/
lemma searchS_exists {α : Type} (m : List Char → Option α) :
    ∀ (l : List Char) (x : α), searchS m l = some x → ∃ s, m s = some x := by
  intro l
  induction l with
  | nil => exact fun x h => ⟨[], h⟩
  | cons c t ih =>
    intro x h
    unfold searchS at h
    cases hm : m (c :: t) with
    | some r => rw [hm] at h; exact ⟨c :: t, by rw [hm, Option.some_inj.mp h]⟩
    | none => rw [hm] at h; exact ih x h

/-- If the matcher succeeds at the start, the search succeeds there. -/
lemma searchS_of_match {α : Type} {m : List Char → Option α} {s : List Char}
    {x : α} (h : m s = some x) : searchS m s = some x := by
  cases s with
  | nil => exact h
  | cons c t => unfold searchS; rw [h]

/-- Characters produced by the star scanner satisfy its class. -/
lemma starS_all (f : Char → Bool) :
    ∀ (s : List Char), ∀ c ∈ (starS f s).1, f c = true := by
  intro s
  induction s with
  | nil => intro c hc; cases hc
  | cons a t ih =>
    intro c hc
    by_cases ha : f a
    · rw [starS, if_pos ha] at hc
      rcases List.mem_cons.mp hc with rfl | hmem
      · exact ha
      · exact ih c hmem
    · rw [starS, if_neg ha] at hc; cases hc

/-- The star scanner consumes exactly a run of its class when the next
character (if any) is outside the class. -/
lemma starS_append (f : Char → Bool) :
    ∀ (a t : List Char), (∀ c ∈ a, f c = true) →
      (∀ c, t.head? = some c → f c = false) → starS f (a ++ t) = (a, t) := by
  intro a
  induction a with
  | nil =>
    intro t _ ht
    cases t with
    | nil => rfl
    | cons c t' => rw [List.nil_append, starS, if_neg (by simp [ht c rfl])]
  | cons c a' ih =>
    intro t hall ht
    rw [List.cons_append, starS, if_pos (hall c (List.mem_cons_self _ _)),
      ih t (fun d hd => hall d (List.mem_cons_of_mem c hd)) ht]

/-- The plus scanner succeeds on a non-empty run of its class when the
next character (if any) is outside the class. -/
lemma plusS_append (f : Char → Bool) (p t : List Char) (hp : p ≠ [])
    (hall : ∀ c ∈ p, f c = true)
    (ht : ∀ c, t.head? = some c → f c = false) : plusS f (p ++ t) = some (p, t) := by
  cases p with
  | nil => exact absurd rfl hp
  | cons c cs =>
    rw [List.cons_append, plusS]
    rw [if_pos (hall c (List.mem_cons_self _ _))]
    rw [starS_append f cs t (fun d hd => hall d (List.mem_cons_of_mem c hd)) ht]

/-- The plus scanner yields a non-empty capture of its class. -/
lemma plusS_facts {f : Char → Bool} {s p r : List Char}
    (h : plusS f s = some (p, r)) : p ≠ [] ∧ ∀ c ∈ p, f c = true := by
  cases s with
  | nil => cases h
  | cons c t =>
    rw [plusS] at h
    by_cases hc : f c
    · rw [if_pos hc] at h
      have h1 : c :: (starS f t).1 = p := congrArg Prod.fst (Option.some_inj.mp h)
      refine ⟨by rw [← h1]; simp, ?_⟩
      intro d hd
      rw [← h1] at hd
      rcases List.mem_cons.mp hd with rfl | hmem
      · exact hc
      · exact starS_all f t d hmem
    · rw [if_neg hc] at h; cases h

/-- A `\w` character is not a `\s` character. -/
lemma not_ws_of_word {c : Char} (h : isWordC c = true) : isWsC c = false := by
  unfold isWordC isAlphaC isDigitC at h
  unfold isWsC
  simp only [Bool.or_eq_true, Bool.and_eq_true, decide_eq_true_eq] at h
  simp only [Bool.or_eq_false_iff, decide_eq_false_iff_not]
  omega

/-- A `\s` character is not a `\w` character. -/
lemma not_word_of_ws {c : Char} (h : isWsC c = true) : isWordC c = false := by
  unfold isWsC at h
  unfold isWordC isAlphaC isDigitC
  simp only [Bool.or_eq_true, decide_eq_true_eq] at h
  simp only [Bool.or_eq_false_iff, Bool.and_eq_false_iff, decide_eq_false_iff_not]
  omega

/-- `NEW_TCE_GLOBAL_VARS_REGEXP` cannot match at a position holding `'A'`:
the optional strict-mode pragma needs an apostrophe and the mandatory
`var` keyword needs a `v`. -/
lemma matchNewTce_cons_A (t : List Char) : matchNewTce ('A' :: t) = none := by
  have h1 : (apoC == 'A') = false := by decide
  have h2 : (('v' : Char) == 'A') = false := by decide
  simp [matchNewTce, optS, useStrictS, litS, List.isPrefixOf, h1, h2]

/-- The search of `NEW_TCE_GLOBAL_VARS_REGEXP` fails on every all-`'A'`
string, of any length. -/
lemma searchNewTce_replicate_A : ∀ n, searchNewTce (List.replicate n 'A') = none := by
  intro n
  induction n with
  | zero => decide
  | succ n ih =>
    rw [List.replicate_succ]
    show searchS matchNewTce ('A' :: List.replicate n 'A') = none
    unfold searchS
    rw [matchNewTce_cons_A]
    exact ih

/-- When the table-declaration shape does not match, `extract_tce_func`
raises and the orchestrator returns that failure. -/
lemma decode_fail_of_no_table {body : List Char} (h : searchNewTce body = none) :
    extract_decode_script (some body) =
      (false, msgNoCaptures (("NEW_TCE_GLOBAL_VARS_REGEXP")).toList) := by
  simp [extract_decode_script, extract_tce_func, h]

/-- C1: the claim says that when the indirection-table-declaration shape
does not match, extraction does not hard-fail at that stage but proceeds
treating the bundle as legacy.  The code does the opposite:
`extract_tce_func` raises `ValueError` on a failed search
(src/sig.py lines 130-131) and `extract_decode_script` returns that
failure (src/lib.py lines 23-29).  The bundle `"x"` has no matching
declaration and the pipeline terminates with the table-stage failure. -/
theorem C1_counterexample :
    ¬ (∀ body : List Char, searchNewTce body = none →
        extract_decode_script (some body) ≠
          (false, msgNoCaptures (("NEW_TCE_GLOBAL_VARS_REGEXP")).toList)) := by
  intro hclaim
  exact hclaim (("x").toList) (by decide) (by decide)

/-- C1 (amended): absence of the indirection-table-declaration shape is a
hard failure: whenever `NEW_TCE_GLOBAL_VARS_REGEXP` has no match in the
bundle, the whole extraction returns `(False, "No captures found for
input using regex 'NEW_TCE_GLOBAL_VARS_REGEXP'")` and the later stages
are not attempted. -/
theorem C1_amended (body : List Char) (h : searchNewTce body = none) :
    extract_decode_script (some body) =
      (false, msgNoCaptures (("NEW_TCE_GLOBAL_VARS_REGEXP")).toList) :=
  decode_fail_of_no_table h

/-- Witness for C1 (amended) at the concrete bundle `"x"`. -/
theorem C1_witness :
    searchNewTce (("x").toList) = none ∧
      extract_decode_script (some (("x").toList)) =
        (false, msgNoCaptures (("NEW_TCE_GLOBAL_VARS_REGEXP")).toList) :=
  ⟨by decide, C1_amended (("x").toList) (by decide)⟩

/-- C5: the claim says bundles beyond an input-size sanity ceiling are
rejected as malformed before any pattern match is attempted.  If such a
ceiling `N` existed, an over-`N` bundle's failure could never be the
no-match failure of the first attempted pattern.  The code has no size
check (src/lib.py lines 15-29 test only `None` and non-`str`), so the
all-`'A'` bundle of length `N + 1` reaches the first pattern match and
fails there, for every `N`. -/
theorem C5_counterexample :
    ¬ ∃ N : Nat, ∀ body : List Char, body.length > N →
        (extract_decode_script (some body)).2 ≠
          msgNoCaptures (("NEW_TCE_GLOBAL_VARS_REGEXP")).toList := by
  rintro ⟨N, hN⟩
  refine hN (List.replicate (N + 1) 'A') (by simp) ?_
  rw [decode_fail_of_no_table (searchNewTce_replicate_A (N + 1))]

/-- C5 (amended): there is no input-size ceiling: at every length there is
a bundle that proceeds to the first pattern match (the all-`'A'` bundle,
containing no matchable shape, fails with the first stage's no-match
error rather than any size rejection); a null input is rejected with the
null-input message. -/
theorem C5_amended :
    (∀ n : Nat, extract_decode_script (some (List.replicate (n + 1) 'A')) =
        (false, msgNoCaptures (("NEW_TCE_GLOBAL_VARS_REGEXP")).toList)) ∧
      extract_decode_script none = (false, nullInputMsg) :=
  ⟨fun n => decode_fail_of_no_table (searchNewTce_replicate_A (n + 1)), rfl⟩

/-- Decomposition of a successful run: success happens exactly when all
three stages succeed, and the output is the concatenation of the decipher
and n-transform scripts. -/
lemma success_decomp {body s : List Char}
    (h : extract_decode_script (some body) = (true, s)) :
    ∃ etf d n, extract_tce_func body = .ok etf ∧
      extract_decipher_func body etf.code = .ok d ∧
      extract_n_transform_func body etf.name etf.code = .ok n ∧ s = d ++ n := by
  cases h1 : extract_tce_func body with
  | error e =>
    rw [show extract_decode_script (some body) = (false, e) from
      by simp [extract_decode_script, h1]] at h
    simp at h
  | ok etf =>
    cases h2 : extract_decipher_func body etf.code with
    | error e =>
      rw [show extract_decode_script (some body) = (false, e) from
        by simp [extract_decode_script, h1, h2]] at h
      simp at h
    | ok d =>
      cases h3 : extract_n_transform_func body etf.name etf.code with
      | error e =>
        rw [show extract_decode_script (some body) = (false, e) from
          by simp [extract_decode_script, h1, h2, h3]] at h
        simp at h
      | ok n =>
        rw [show extract_decode_script (some body) = (true, d ++ n) from
          by simp [extract_decode_script, h1, h2, h3]] at h
        exact ⟨etf, d, n, rfl, h2, h3, (congrArg Prod.snd h).symm⟩

/-- C2: `extract_decode_script` is all-or-nothing.  Success `(True, s)`
holds exactly when all three stages succeed and `s` is the decipher
script concatenated with the n-transform script; and a failure's payload
is the error message of the earliest failing stage — no partial script is
ever returned. -/
theorem C2_all_or_nothing :
    (∀ body s : List Char,
      extract_decode_script (some body) = (true, s) ↔
        ∃ etf d n, extract_tce_func body = .ok etf ∧
          extract_decipher_func body etf.code = .ok d ∧
          extract_n_transform_func body etf.name etf.code = .ok n ∧
          s = d ++ n) ∧
    (∀ body : List Char, (extract_decode_script (some body)).1 = false →
      ∃ e, (extract_decode_script (some body)).2 = e ∧
        (extract_tce_func body = .error e ∨
         ∃ etf, extract_tce_func body = .ok etf ∧
           (extract_decipher_func body etf.code = .error e ∨
            ∃ d, extract_decipher_func body etf.code = .ok d ∧
              extract_n_transform_func body etf.name etf.code = .error e))) := by
  constructor
  · intro body s
    constructor
    · exact success_decomp
    · rintro ⟨etf, d, n, h1, h2, h3, rfl⟩
      simp [extract_decode_script, h1, h2, h3]
  · intro body hf
    cases h1 : extract_tce_func body with
    | error e => exact ⟨e, by simp [extract_decode_script, h1], Or.inl rfl⟩
    | ok etf =>
      cases h2 : extract_decipher_func body etf.code with
      | error e =>
        exact ⟨e, by simp [extract_decode_script, h1, h2], Or.inr ⟨etf, rfl, Or.inl h2⟩⟩
      | ok d =>
        cases h3 : extract_n_transform_func body etf.name etf.code with
        | error e =>
          exact ⟨e, by simp [extract_decode_script, h1, h2, h3],
            Or.inr ⟨etf, rfl, Or.inr ⟨d, h2, h3⟩⟩⟩
        | ok n => simp [extract_decode_script, h1, h2, h3] at hf

/-- Witness for C2 at the concrete bundle `"x"`, which fails at the first
stage. -/
theorem C2_witness :
    (extract_decode_script (some (("x").toList))).1 = false ∧
      ∃ e, (extract_decode_script (some (("x").toList))).2 = e ∧
        (extract_tce_func (("x").toList) = .error e ∨
         ∃ etf, extract_tce_func (("x").toList) = .ok etf ∧
           (extract_decipher_func (("x").toList) etf.code = .error e ∨
            ∃ d, extract_decipher_func (("x").toList) etf.code = .ok d ∧
              extract_n_transform_func (("x").toList) etf.name etf.code = .error e)) :=
  ⟨by decide, C2_all_or_nothing.2 (("x").toList) (by decide)⟩

/-- An infix of `x` is an infix of `x ++ y`. -/
lemma infixAppendRight {l x y : List Char} (h : l <:+: x) : l <:+: x ++ y := by
  obtain ⟨u, v, huv⟩ := h
  exact ⟨u, v ++ y, by rw [← huv]; simp⟩

/-- An infix of `y` is an infix of `x ++ y`. -/
lemma infixAppendLeft {l x y : List Char} (h : l <:+: y) : l <:+: x ++ y := by
  obtain ⟨u, v, huv⟩ := h
  exact ⟨x ++ u, v, by rw [← huv]; simp⟩

/-- When a search of `extract_decipher_func`'s fast path fails, the
function takes the classic path. -/
lemma decipher_no_fast {body code : List Char}
    (h : searchTceSign body = none ∨ searchTceSignAction body = none) :
    extract_decipher_func body code = decipher_classic_path body code := by
  unfold extract_decipher_func
  rcases h with h | h
  · rw [h]
  · rw [h]
    cases searchTceSign body <;> rfl

/-- Every success of the classic path binds the canonical decipher name. -/
lemma classic_ok_bind {body code d : List Char}
    (h : decipher_classic_path body code = .ok d) :
    (("var ").toList ++ DECIPHER_FUNC_NAME ++ ("=").toList) <:+: d := by
  unfold decipher_classic_path at h
  cases hh : searchHelper body with
  | none => rw [hh] at h; simp at h
  | some pr =>
    obtain ⟨ho, ab⟩ := pr
    rw [hh] at h
    dsimp only at h
    by_cases h1 : ho = []
    · rw [if_pos h1] at h; simp at h
    · rw [if_neg h1] at h
      by_cases h2 : ab = []
      · rw [if_pos h2] at h; simp at h
      · rw [if_neg h2] at h
        by_cases h3 : anyOfFour ab
        · rw [h3] at h
          simp only [Bool.not_true, Bool.false_eq_true, if_false] at h
          cases hd : searchDecipher body with
          | some f =>
            rw [hd] at h
            obtain rfl := (Except.ok.injEq _ _).mp h
            exact ⟨(";").toList ++ ho ++ ("\n").toList,
              f ++ (";").toList, by simp⟩
          | none =>
            rw [hd] at h
            cases hf : searchFuncTce body with
            | none => rw [hf] at h; simp at h
            | some f => rw [hf] at h; simp at h
        · rw [Bool.not_eq_true] at h3
          rw [h3] at h
          simp only [Bool.not_false, if_true] at h
          simp at h

/-- Every success of `extract_decipher_func` binds the canonical decipher
name. -/
lemma decipher_ok_bind {body code d : List Char}
    (h : extract_decipher_func body code = .ok d) :
    (("var ").toList ++ DECIPHER_FUNC_NAME ++ ("=").toList) <:+: d := by
  unfold extract_decipher_func at h
  cases hs : searchTceSign body with
  | none =>
    rw [hs] at h
    exact classic_ok_bind (by cases searchTceSignAction body <;> exact h)
  | some sig =>
    cases ha : searchTceSignAction body with
    | none => rw [hs, ha] at h; exact classic_ok_bind h
    | some act =>
      rw [hs, ha] at h
      obtain rfl := (Except.ok.injEq _ _).mp h
      exact ⟨[], sig ++ act ++ code ++ (";").toList, by simp⟩

/-- Every success of `extract_n_transform_func` binds the canonical
n-transform name. -/
lemma ntrans_ok_bind {body name code n : List Char}
    (h : extract_n_transform_func body name code = .ok n) :
    (("var ").toList ++ N_TRANSFORM_FUNC_NAME ++ ("=").toList) <:+: n := by
  unfold extract_n_transform_func at h
  cases ht : searchTceN body with
  | none => rw [ht] at h; simp at h
  | some nf =>
    rw [ht] at h
    dsimp only at h
    by_cases h1 : nf = []
    · rw [if_pos h1] at h; simp at h
    · rw [if_neg h1] at h
      obtain rfl := (Except.ok.injEq _ _).mp h
      exact ⟨[], modernClean name nf ++ code ++ (";").toList, by simp⟩

set_option maxRecDepth 1000000 in
/-- The full pipeline on the crafted end-to-end bundle. -/
lemma crafted_run : extract_decode_script (some craftedBundle) = (true, craftedOutput) := by
  decide

set_option maxRecDepth 1000000 in
/-- C3: every successful extraction's composite script contains a binding
of the canonical decipher name and a binding of the canonical n-transform
name, and the two names differ; on the crafted end-to-end bundle each
canonical name occurs exactly once in the final script. -/
theorem C3_canonical_names :
    (∀ body s : List Char, extract_decode_script (some body) = (true, s) →
      ((("var ").toList ++ DECIPHER_FUNC_NAME ++ ("=").toList) <:+: s ∧
       (("var ").toList ++ N_TRANSFORM_FUNC_NAME ++ ("=").toList) <:+: s ∧
       DECIPHER_FUNC_NAME ≠ N_TRANSFORM_FUNC_NAME)) ∧
    (extract_decode_script (some craftedBundle) = (true, craftedOutput) ∧
     countOccur DECIPHER_FUNC_NAME craftedOutput = 1 ∧
     countOccur N_TRANSFORM_FUNC_NAME craftedOutput = 1) := by
  constructor
  · intro body s h
    obtain ⟨etf, d, n, _, h2, h3, rfl⟩ := success_decomp h
    exact ⟨infixAppendRight (decipher_ok_bind h2),
      infixAppendLeft (ntrans_ok_bind h3), by decide⟩
  · exact ⟨crafted_run, by decide, by decide⟩

/-- Witness for C3's universal part at the crafted bundle. -/
theorem C3_witness :
    extract_decode_script (some craftedBundle) = (true, craftedOutput) ∧
      ((("var ").toList ++ DECIPHER_FUNC_NAME ++ ("=").toList) <:+: craftedOutput ∧
       (("var ").toList ++ N_TRANSFORM_FUNC_NAME ++ ("=").toList) <:+: craftedOutput ∧
       DECIPHER_FUNC_NAME ≠ N_TRANSFORM_FUNC_NAME) :=
  ⟨crafted_run, C3_canonical_names.1 craftedBundle craftedOutput crafted_run⟩

/-- An occurrence position of a non-empty pattern lies within the text. -/
lemma occursAtB_lt {pat s : List Char} {i : Nat} (hp : pat ≠ [])
    (h : occursAtB pat s i = true) : i < s.length := by
  by_contra hge
  rw [Nat.not_lt] at hge
  unfold occursAtB at h
  rw [List.drop_eq_nil_of_le hge] at h
  cases pat with
  | nil => exact hp rfl
  | cons c t => simp [List.isPrefixOf] at h

set_option maxRecDepth 1000000 in
/-- In the crafted composite, the decipher binding occurs only at the very
start. -/
lemma crafted_bind_at_zero :
    ∀ i : Nat,
      occursAtB (("var ").toList ++ DECIPHER_FUNC_NAME ++ ("=").toList)
        craftedOutput i = true → i = 0 := by
  intro i h
  have hlt : i < craftedOutput.length :=
    occursAtB_lt (by decide) h
  have hbound : ∀ j : Nat, j < craftedOutput.length →
      occursAtB (("var ").toList ++ DECIPHER_FUNC_NAME ++ ("=").toList)
        craftedOutput j = true → j = 0 := by decide
  exact hbound i hlt h

/-- C6: the claim says the composite emits, in order, first the
indirection-table declaration (when used), then the decipher fragment
bound to its canonical name, then the n-transform fragment.  On the
crafted bundle's fast path the composite instead *starts* with the
decipher binding and appends the table declaration after each fragment,
so no occurrence of the table declaration precedes the decipher
binding. -/
theorem C6_counterexample :
    ¬ ∃ i1 i2 i3 : Nat, i1 < i2 ∧ i2 < i3 ∧
        occursAtB craftedCode craftedOutput i1 = true ∧
        occursAtB (("var ").toList ++ DECIPHER_FUNC_NAME ++ ("=").toList)
          craftedOutput i2 = true ∧
        occursAtB (("var ").toList ++ N_TRANSFORM_FUNC_NAME ++ ("=").toList)
          craftedOutput i3 = true := by
  rintro ⟨i1, i2, i3, h12, _, _, hB, _⟩
  rw [crafted_bind_at_zero i2 hB] at h12
  exact Nat.not_lt_zero i1 h12

/-- C6 (amended): on the fast decipher path combined with the modern
n-transform path, the composite is the decipher part followed by the
n-transform part, each terminated by `;`; within each part the canonical
binding comes first and the table declaration is appended at the end of
the part (it is not emitted once, first). -/
theorem C6_amended (body name code sig act nf : List Char)
    (h1 : extract_tce_func body = .ok ⟨name, code⟩)
    (h2 : searchTceSign body = some sig)
    (h3 : searchTceSignAction body = some act)
    (h4 : searchTceN body = some nf)
    (h5 : nf ≠ []) :
    extract_decode_script (some body) =
      (true,
        (("var ").toList ++ DECIPHER_FUNC_NAME ++ ("=").toList ++ sig ++ act ++
          code ++ (";").toList) ++
        (("var ").toList ++ N_TRANSFORM_FUNC_NAME ++ ("=").toList ++
          modernClean name nf ++ code ++ (";").toList)) := by
  have hd : extract_decipher_func body code =
      .ok (("var ").toList ++ DECIPHER_FUNC_NAME ++ ("=").toList ++ sig ++ act ++
        code ++ (";").toList) := by
    unfold extract_decipher_func
    rw [h2, h3]
  have hn : extract_n_transform_func body name code =
      .ok (("var ").toList ++ N_TRANSFORM_FUNC_NAME ++ ("=").toList ++
        modernClean name nf ++ code ++ (";").toList) := by
    unfold extract_n_transform_func
    rw [h4]
    dsimp only
    rw [if_neg h5]
  simp [extract_decode_script, h1, hd, hn]

set_option maxRecDepth 1000000 in
/-- Witness for C6 (amended) at the crafted bundle. -/
theorem C6_witness :
    extract_decode_script (some craftedBundle) =
      (true,
        (("var ").toList ++ DECIPHER_FUNC_NAME ++ ("=").toList ++ craftedSig ++
          craftedAct ++ craftedCode ++ (";").toList) ++
        (("var ").toList ++ N_TRANSFORM_FUNC_NAME ++ ("=").toList ++
          modernClean craftedName craftedNFunc ++ craftedCode ++ (";").toList)) :=
  C6_amended craftedBundle craftedName craftedCode craftedSig craftedAct
    craftedNFunc (by decide) (by decide) (by decide) (by decide) (by decide)

set_option maxRecDepth 1000000 in
/-- C4: the claim says that on the fallback (indirection/TCE) driver path
a missing global-variable-declarations shape produces a stage-specific
declarations error.  In the code, reaching that path always raises the
`ValueError` from compiling `TCE_GLOBAL_VARS_REGEXP` — a regex that does
not compile — before any declaration search, so the stage fails with
`invalidTgvMsg` and never with the declarations-specific message
(`msgNoSecondGroup`); `tceDriverBundle`, which contains no declaration
shape at all, exhibits this. -/
theorem C4_counterexample :
    searchTceSign tceDriverBundle = none ∧
    searchHelper tceDriverBundle = some (legacyHelper, legacyActionBody) ∧
    anyOfFour legacyActionBody = true ∧
    searchDecipher tceDriverBundle = none ∧
    (searchFuncTce tceDriverBundle).isSome = true ∧
    extract_decipher_func tceDriverBundle craftedCode = .error invalidTgvMsg ∧
    invalidTgvMsg ≠ msgNoSecondGroup (("TCE_GLOBAL_VARS_REGEXP")).toList := by
  refine ⟨by decide, by decide, by decide, by decide, by decide, ?_, by decide⟩
  decide

/-- C4 (amended): on the fallback driver path — no fast-path sign match,
helper object present and validated, no `DECIPHER_REGEXP` match, a
`FUNCTION_TCE_REGEXP` match — the decipher stage always fails with the
regex-compilation error `Invalid regex pattern: (?:^|[;,])…`, whether or
not any declaration shape is present in the bundle. -/
theorem C4_amended (body code h ab f : List Char)
    (hs : searchTceSign body = none)
    (hh : searchHelper body = some (h, ab))
    (h1 : h ≠ []) (h2 : ab ≠ [])
    (h4 : anyOfFour ab = true)
    (hd : searchDecipher body = none)
    (hf : searchFuncTce body = some f) :
    extract_decipher_func body code = .error invalidTgvMsg := by
  rw [decipher_no_fast (Or.inl hs)]
  unfold decipher_classic_path
  rw [hh]
  dsimp only
  rw [if_neg h1, if_neg h2, h4]
  simp only [Bool.not_true, Bool.false_eq_true, if_false]
  rw [hd, hf]

set_option maxRecDepth 1000000 in
/-- Witness for C4 (amended) at `tceDriverBundle`. -/
theorem C4_witness :
    extract_decipher_func tceDriverBundle craftedCode = .error invalidTgvMsg :=
  C4_amended tceDriverBundle craftedCode legacyHelper legacyActionBody
    (("function(c)\x7bc=c.split(Q[0]);H[\"p\"](c,1);return c.join(Q[1])\x7d").toList)
    (by decide) (by decide) (by decide) (by decide) (by decide) (by decide) (by decide)

/-- C7: on the non-fast path the decipher stage validates the captured
helper-entry list against the four operation patterns (src/sig.py lines
173-181): if none matches, the stage fails with the `PATTERN_REGEX_SET`
error, and the stage can succeed only when at least one matches. -/
theorem C7_operation_gate (body code h ab : List Char)
    (hs : searchTceSign body = none)
    (hh : searchHelper body = some (h, ab))
    (h1 : h ≠ []) (h2 : ab ≠ []) :
    (anyOfFour ab = false →
      extract_decipher_func body code =
        .error (msgNoCaptures (("PATTERN_REGEX_SET")).toList)) ∧
    (∀ out, extract_decipher_func body code = .ok out → anyOfFour ab = true) := by
  have hbase : extract_decipher_func body code = decipher_classic_path body code :=
    decipher_no_fast (Or.inl hs)
  constructor
  · intro hfour
    rw [hbase]
    unfold decipher_classic_path
    rw [hh]
    dsimp only
    rw [if_neg h1, if_neg h2, hfour]
    simp
  · intro out hout
    by_cases h4 : anyOfFour ab
    · exact h4
    · rw [Bool.not_eq_true] at h4
      rw [hbase] at hout
      unfold decipher_classic_path at hout
      rw [hh] at hout
      dsimp only at hout
      rw [if_neg h1, if_neg h2, h4] at hout
      simp at hout

set_option maxRecDepth 1000000 in
/-- Witness for C7 at `legacyBundle`: the gate hypotheses hold there, the
helper body contains a reverse and a slice entry, and the stage
succeeds. -/
theorem C7_witness :
    (anyOfFour legacyActionBody = false →
      extract_decipher_func legacyBundle craftedCode =
        .error (msgNoCaptures (("PATTERN_REGEX_SET")).toList)) ∧
    (∀ out, extract_decipher_func legacyBundle craftedCode = .ok out →
      anyOfFour legacyActionBody = true) :=
  C7_operation_gate legacyBundle craftedCode legacyHelper legacyActionBody
    (by decide) (by decide) (by decide) (by decide)

/-- C8: the claim says guard removal is idempotent on both paths.  On the
modern path the removal replaces only the occurrences of the *first*
short-circuit match; a fragment with two differently-named guards is
cleaned to a fragment that still contains a guard, which a second
application removes, so `clean (clean f) ≠ clean f`. -/
theorem C8_counterexample :
    modernClean craftedName (modernClean craftedName doubleGuardFragment) ≠
      modernClean craftedName doubleGuardFragment := by decide

/-- C8 (amended): guard removal is idempotent on guard-free results: if
the once-cleaned fragment contains no further match of the guard pattern,
a second application is a no-op — on the modern literal-substitution path
and on the legacy `sub`-based path (the latter is dead code in the
pipeline, since `extract_n_transform_func` raises at the
`N_TRANSFORM_REGEXP` compilation before reaching it). -/
theorem C8_amended :
    (∀ name f, searchShortCircuit name (modernClean name f) = none →
      modernClean name (modernClean name f) = modernClean name f) ∧
    (∀ p f, searchSplitS (matchCleaned p) (legacyClean p f) = none →
      legacyClean p (legacyClean p f) = legacyClean p f) := by
  constructor
  · intro name f h
    generalize modernClean name f = g at h ⊢
    unfold modernClean
    rw [h]
  · intro p f h
    generalize legacyClean p f = g at h ⊢
    unfold legacyClean subAllS
    rw [h]

/-- Witness for C8 (amended): a single-guard fragment cleans to `";"` on
the modern path and stays fixed afterwards; the one-guard legacy fragment
cleans to the empty string and stays fixed afterwards. -/
theorem C8_witness :
    (searchShortCircuit craftedName (modernClean craftedName singleGuardFragment) = none ∧
      modernClean craftedName (modernClean craftedName singleGuardFragment) =
        modernClean craftedName singleGuardFragment) ∧
    (searchSplitS (matchCleaned (("a").toList))
        (legacyClean (("a").toList) legacyGuardFragment) = none ∧
      legacyClean (("a").toList) (legacyClean (("a").toList) legacyGuardFragment) =
        legacyClean (("a").toList) legacyGuardFragment) :=
  ⟨⟨by decide, C8_amended.1 craftedName singleGuardFragment (by decide)⟩,
   ⟨by decide, C8_amended.2 (("a").toList) legacyGuardFragment (by decide)⟩⟩

/-- The n-transform stage never produces the `FOR_PARAM_MATCHING`
no-captures failure: the modern path returns before the parameter search
and the legacy path is cut off by the `N_TRANSFORM_REGEXP` compilation
failure. -/
lemma extract_n_never_param (body name code : List Char) :
    extract_n_transform_func body name code ≠
      .error (msgNoCaptures (("FOR_PARAM_MATCHING")).toList) := by
  unfold extract_n_transform_func
  cases ht : searchTceN body with
  | none =>
    dsimp only
    intro h
    have := (Except.error.injEq _ _).mp h
    revert this
    decide
  | some nf =>
    dsimp only
    by_cases h1 : nf = []
    · rw [if_pos h1]
      intro h
      have := (Except.error.injEq _ _).mp h
      revert this
      decide
    · rw [if_neg h1]
      intro h
      cases h

set_option maxRecDepth 1000000 in
/-- C9: the claim says that when a legacy n-transform shape matches but
the parameter-name shape cannot be found, the stage fails with the
`FOR_PARAM_MATCHING` error.  In the code, whenever the modern shape does
not match, line 234 raises the `ValueError` from compiling
`N_TRANSFORM_REGEXP` before any legacy shape is searched, so even a
bundle that the (valid) `N_TRANSFORM_TCE_REGEXP` shape matches ends with
`invalidNTransformMsg`, never with the parameter error. -/
theorem C9_counterexample :
    searchTceN tceLegacyFragment = none ∧
    searchNTransformTce tceLegacyFragment = some tceLegacyFragment ∧
    extract_n_transform_func tceLegacyFragment craftedName craftedCode =
      .error invalidNTransformMsg ∧
    invalidNTransformMsg ≠ msgNoCaptures (("FOR_PARAM_MATCHING")).toList := by
  refine ⟨by decide, by decide, ?_, by decide⟩
  decide

/-- C9 (amended): whenever the modern n-transform shape does not match,
the stage fails with the `N_TRANSFORM_REGEXP` compilation error; the
`NTransformParameterNotFound`-style failure of src/sig.py lines 256-257
is never produced. -/
theorem C9_amended :
    (∀ body name code : List Char, searchTceN body = none →
      extract_n_transform_func body name code = .error invalidNTransformMsg) ∧
    (∀ body name code : List Char,
      extract_n_transform_func body name code ≠
        .error (msgNoCaptures (("FOR_PARAM_MATCHING")).toList)) :=
  ⟨fun body name code h => by simp [extract_n_transform_func, h],
   extract_n_never_param⟩

set_option maxRecDepth 1000000 in
/-- Witness for C9 (amended) at `tceLegacyFragment`. -/
theorem C9_witness :
    extract_n_transform_func tceLegacyFragment craftedName craftedCode =
      .error invalidNTransformMsg :=
  C9_amended.1 tceLegacyFragment craftedName craftedCode (by decide)

/-- Reduction of an `Option` bind on a present value. -/
lemma optBind_some {α β : Type} (x : α) (f : α → Option β) :
    (some x >>= f) = f x := rfl

/-- Structure of the captures of the shared one-parameter function header
`function\(\s*(\w+)\s*\)`: the whitespace runs are whitespace, the
parameter is a non-empty word run. -/
lemma nHeaderS_facts {s a p b rest : List Char}
    (h : nHeaderS s = some (a, p, b, rest)) :
    (∀ c ∈ a, isWsC c = true) ∧ p ≠ [] ∧ (∀ c ∈ p, isWordC c = true) ∧
      (∀ c ∈ b, isWsC c = true) := by
  unfold nHeaderS at h
  cases h1 : litS ("function(").toList s with
  | none => rw [h1] at h; cases h
  | some pr1 =>
    obtain ⟨l1, s1⟩ := pr1
    rw [h1] at h
    simp only [optBind_some] at h
    cases h2 : plusS isWordC (starS isWsC s1).2 with
    | none => rw [h2] at h; cases h
    | some pr2 =>
      obtain ⟨p2, s3⟩ := pr2
      rw [h2] at h
      simp only [optBind_some] at h
      cases h3 : litS (")").toList (starS isWsC s3).2 with
      | none => rw [h3] at h; cases h
      | some pr3 =>
        obtain ⟨l2, s5⟩ := pr3
        rw [h3] at h
        simp only [optBind_some, Option.pure_def, Option.some_inj] at h
        obtain ⟨ha, hp, hb, _⟩ :
            (starS isWsC s1).1 = a ∧ p2 = p ∧ (starS isWsC s3).1 = b ∧ s5 = rest := by
          exact ⟨congrArg (·.1) h, congrArg (·.2.1) h,
            congrArg (·.2.2.1) h, congrArg (·.2.2.2) h⟩
        obtain ⟨hpne, hpw⟩ := plusS_facts h2
        exact ⟨ha ▸ starS_all isWsC s1, hp ▸ hpne, hp ▸ hpw,
          hb ▸ starS_all isWsC s3⟩

/-- The matched span of `N_TRANSFORM_TCE_REGEXP` starts with the
one-parameter function header. -/
lemma matchNTransformTce_header {s g r : List Char}
    (h : matchNTransformTce s = some (g, r)) :
    ∃ a p b t : List Char,
      g = ("function(").toList ++ a ++ p ++ b ++ (")").toList ++ t ∧
        (∀ c ∈ a, isWsC c = true) ∧ p ≠ [] ∧ (∀ c ∈ p, isWordC c = true) ∧
        (∀ c ∈ b, isWsC c = true) := by
  unfold matchNTransformTce at h
  cases h1 : nHeaderS s with
  | none => rw [h1] at h; cases h
  | some pr1 =>
    obtain ⟨a, p, b, s1⟩ := pr1
    rw [h1] at h
    simp only [optBind_some] at h
    cases h2 : nTceVarS p s1 with
    | none => rw [h2] at h; cases h
    | some pr2 =>
      obtain ⟨v, bArr, s2⟩ := pr2
      rw [h2] at h
      simp only [optBind_some] at h
      cases h3 : nTceArrS s2 with
      | none => rw [h3] at h; cases h
      | some pr3 =>
        obtain ⟨ar, s3⟩ := pr3
        rw [h3] at h
        simp only [optBind_some] at h
        cases h4 : lazyS true (nTceStopS p bArr) (s3.length + 1) s3 with
        | none => rw [h4] at h; cases h
        | some pr4 =>
          obtain ⟨z, s4⟩ := pr4
          rw [h4] at h
          simp only [optBind_some, Option.pure_def, Option.some_inj] at h
          have hg : ("function(").toList ++ a ++ p ++ b ++ (")").toList ++
              (v ++ ar ++ z) = g := by
            have h' := congrArg (·.1) h
            simpa [List.append_assoc] using h'
          obtain ⟨ha, hp, hpw, hb⟩ := nHeaderS_facts h1
          exact ⟨a, p, b, v ++ ar ++ z, hg.symm, ha, hp, hpw, hb⟩

/-- `FOR_PARAM_MATCHING` matches at the very start of any text of the
header shape, capturing the parameter. -/
lemma forParam_at_header (a p b t : List Char)
    (ha : ∀ c ∈ a, isWsC c = true) (hp : p ≠ [])
    (hpw : ∀ c ∈ p, isWordC c = true) (hb : ∀ c ∈ b, isWsC c = true) :
    matchForParam (("function(").toList ++ a ++ p ++ b ++ (")").toList ++ t) =
      some p := by
  have hpHead : ∀ c : Char, (p ++ (b ++ (')' :: t))).head? = some c →
      isWsC c = false := by
    cases p with
    | nil => exact absurd rfl hp
    | cons c0 p' =>
      intro c hc
      rw [List.cons_append, List.head?_cons, Option.some_inj] at hc
      exact hc ▸ not_ws_of_word (hpw c0 (List.mem_cons_self _ _))
  have hbHead : ∀ c : Char, (b ++ (')' :: t)).head? = some c →
      isWordC c = false := by
    cases b with
    | nil =>
      intro c hc
      rw [List.nil_append, List.head?_cons, Option.some_inj] at hc
      rw [← hc]
      decide
    | cons c0 b' =>
      intro c hc
      rw [List.cons_append, List.head?_cons, Option.some_inj] at hc
      exact hc ▸ not_word_of_ws (hb c0 (List.mem_cons_self _ _))
  have e1 : litS ("function").toList
      (("function(").toList ++ a ++ p ++ b ++ (")").toList ++ t) =
      some (("function").toList, '(' :: (a ++ (p ++ (b ++ (')' :: t))))) := by
    have : (("function(").toList ++ a ++ p ++ b ++ (")").toList ++ t : List Char) =
        ("function").toList ++ ('(' :: (a ++ (p ++ (b ++ (')' :: t))))) := by
      simp [List.append_assoc]
    rw [this, litS_self]
  have e2 : starS isWsC ('(' :: (a ++ (p ++ (b ++ (')' :: t))))) =
      ([], '(' :: (a ++ (p ++ (b ++ (')' :: t))))) := by
    rw [starS, if_neg (by decide)]
  have e3 : litS ("(").toList ('(' :: (a ++ (p ++ (b ++ (')' :: t))))) =
      some (("(").toList, a ++ (p ++ (b ++ (')' :: t)))) :=
    litS_self (("(").toList) (a ++ (p ++ (b ++ (')' :: t))))
  have e4 : starS isWsC (a ++ (p ++ (b ++ (')' :: t)))) =
      (a, p ++ (b ++ (')' :: t))) :=
    starS_append isWsC a (p ++ (b ++ (')' :: t))) ha hpHead
  have e5 : plusS isWordC (p ++ (b ++ (')' :: t))) =
      some (p, b ++ (')' :: t)) :=
    plusS_append isWordC p (b ++ (')' :: t)) hp hpw hbHead
  have e6 : starS isWsC (b ++ (')' :: t)) = (b, ')' :: t) :=
    starS_append isWsC b (')' :: t) hb
      (by intro c hc; rw [List.head?_cons, Option.some_inj] at hc; rw [← hc]; decide)
  have e7 : litS (")").toList (')' :: t) = some ((")").toList, t) :=
    litS_self ((")").toList) t
  unfold matchForParam
  simp only [e1, optBind_some, e2, e3, e4, e5, e6, e7, Option.pure_def]

/-- C10: the `FOR_PARAM_MATCHING`-failure branch of
`extract_n_transform_func` is unreachable.  Every fragment matched by the
(compilable) legacy shape `N_TRANSFORM_TCE_REGEXP` begins with a
one-parameter function header, on which the `FOR_PARAM_MATCHING` search
always succeeds; and the stage never returns the
`No captures found for input using regex 'FOR_PARAM_MATCHING'` failure —
indeed the legacy branch itself is cut off earlier by the
`N_TRANSFORM_REGEXP` compilation failure, and `N_TRANSFORM_REGEXP` being
an invalid pattern never matches any fragment at all. -/
theorem C10_param_branch_unreachable :
    (∀ body g : List Char, searchNTransformTce body = some g →
      (searchForParam g).isSome = true) ∧
    (∀ body name code : List Char,
      extract_n_transform_func body name code ≠
        .error (msgNoCaptures (("FOR_PARAM_MATCHING")).toList)) := by
  constructor
  · intro body g hs
    obtain ⟨s, hm⟩ := searchS_exists _ body g hs
    cases hmt : matchNTransformTce s with
    | none => rw [hmt] at hm; cases hm
    | some pr =>
      obtain ⟨g', r⟩ := pr
      rw [hmt] at hm
      simp at hm
      obtain ⟨a, p, b, t, hg, ha, hp, hpw, hb⟩ := matchNTransformTce_header hmt
      have hfp := forParam_at_header a p b t ha hp hpw hb
      unfold searchForParam
      rw [← hm, hg, searchS_of_match hfp]
      rfl
  · exact extract_n_never_param

set_option maxRecDepth 1000000 in
/-- Witness for C10 at `tceLegacyFragment`. -/
theorem C10_witness : (searchForParam tceLegacyFragment).isSome = true :=
  C10_param_branch_unreachable.1 tceLegacyFragment tceLegacyFragment (by decide)
